import Mathlib

/-!
# Verification of the riscv-emu execution engine

Shallow embedding of the RV64 instruction-set simulator (decoder, CSR file,
MMU/TLB, per-instruction executor, trap delivery and the `step` driver) and
proofs of the specification claims about it.

Machine integers are modelled as `Nat` with explicit reduction modulo `2^64`
(or `2^32`) exactly where the Rust source wraps; signed views go through `Int`
two's-complement helpers.
-/

set_option maxRecDepth 16000

namespace RiscvEmu

/-! ## Machine-arithmetic helpers -/

/-- `2^64`, the modulus of the 64-bit register arithmetic. -/
def M64 : Nat := 2 ^ 64

/-- `2^32`, the modulus of the 32-bit (`-W`) arithmetic. -/
def M32 : Nat := 2 ^ 32

/-- Reduce to the low 64 bits (Rust `u64` wrapping). -/
def mask64 (n : Nat) : Nat := n % M64

/-- Reduce to the low 32 bits (Rust `u32` wrapping / `as u32`). -/
def mask32 (n : Nat) : Nat := n % M32

/-- Interpret the low `bits` bits of `n` as a two's-complement signed value
(the effect of Rust `(val << (64-bits)) >> (64-bits)` on `i64`, and of
`as i64` / `as i32` casts when `bits` is 64 or 32). -/
def sextBits (n : Nat) (bits : Nat) : Int :=
  let m := n % 2 ^ bits
  if m < 2 ^ (bits - 1) then (m : Int) else (m : Int) - 2 ^ bits

/-- Rust `as i64`: reinterpret a `u64` value as signed. -/
def toI64 (n : Nat) : Int := sextBits n 64

/-- Rust `as i32` on a `u64` value: truncate to 32 bits, reinterpret signed. -/
def toI32 (n : Nat) : Int := sextBits n 32

/-- Rust `as u64` on an `i64` value: two's-complement wrap into `[0, 2^64)`. -/
def ofI64 (i : Int) : Nat := (i % (M64 : Int)).toNat

/-- Rust `as u32` on an `i32`/`u32` value: wrap into `[0, 2^32)`. -/
def ofI32 (i : Int) : Nat := (i % (M32 : Int)).toNat

/-- 64-bit wrapping add. -/
def add64 (a b : Nat) : Nat := mask64 (a + b)

/-- 64-bit wrapping subtract (`u64::wrapping_sub`). -/
def sub64 (a b : Nat) : Nat := ofI64 ((a : Int) - (b : Int))

/-- 64-bit wrapping left shift by an amount already below 64. -/
def shl64 (a s : Nat) : Nat := mask64 (a <<< (s % 64))

/-- 64-bit logical right shift. -/
def shr64 (a s : Nat) : Nat := a >>> (s % 64)

/-- Arithmetic right shift of the signed view of `a` (Rust `i64 >> s`),
result reinterpreted as `u64`.  Arithmetic shift is floor division. -/
def sra64 (a s : Nat) : Nat := ofI64 (Int.fdiv (toI64 a) (2 ^ (s % 64)))

/-- Rust `i64` truncating division (`wrapping_div` off the overflow case). -/
def tdiv (a b : Int) : Int := Int.tdiv a b

/-- Rust `i64` remainder (`wrapping_rem` off the overflow case); sign of the
dividend. -/
def tmod (a b : Int) : Int := Int.tmod a b

/-! ## Privilege modes and the CSR file — `src/csr/mod.rs` -/

/-- `enum PrivMode { User = 0, Supervisor = 1, Machine = 3 }`. -/
inductive PrivMode where
  | User
  | Supervisor
  | Machine
deriving DecidableEq, Repr

/-- The discriminant values of `PrivMode` (`as u64` casts in the source). -/
def PrivMode.toNat : PrivMode → Nat
  | .User => 0
  | .Supervisor => 1
  | .Machine => 3

/-- `PrivMode::from_u64`. -/
def PrivMode.from_u64 (val : Nat) : Option PrivMode :=
  match val with
  | 0 => some .User
  | 1 => some .Supervisor
  | 3 => some .Machine
  | _ => none

/-- `enum CsrError`. -/
inductive CsrError where
  | UnsupportedRead (csr : Nat)
  | UnsupportedWrite (csr : Nat)
  | PrivilegeViolation (csr : Nat)
deriving DecidableEq, Repr

/-- `struct CsrFile`.  The source holds `pmpaddr: [u64; 16]` and
`pmpcfg: [u8; 16]`; only index 0 of each is ever read or written, so the
embedding keeps those two cells. -/
structure CsrFile where
  priv_mode : PrivMode := .Machine
  mstatus : Nat := 0
  mtvec : Nat := 0
  mepc : Nat := 0
  mcause : Nat := 0
  mtval : Nat := 0
  mie : Nat := 0
  mip : Nat := 0
  medeleg : Nat := 0
  mideleg : Nat := 0
  mscratch : Nat := 0
  stvec : Nat := 0
  sepc : Nat := 0
  scause : Nat := 0
  stval : Nat := 0
  sscratch : Nat := 0
  satp : Nat := 0
  cycle : Nat := 0
  time : Nat := 0
  pmpaddr0 : Nat := 0
  pmpcfg0 : Nat := 0
  mhartid : Nat := 0
deriving DecidableEq, Repr

namespace CsrFile

/-- mstatus bit constants from the source. -/
def MSTATUS_MIE : Nat := 1 <<< 3
def MSTATUS_SIE : Nat := 1 <<< 1
def MSTATUS_MPIE : Nat := 1 <<< 7
def MSTATUS_SPIE : Nat := 1 <<< 5
def MSTATUS_MPP : Nat := 0b11 <<< 11
def MSTATUS_SPP : Nat := 1 <<< 8

/-- `CsrFile::mpp`. -/
def mpp (c : CsrFile) : PrivMode :=
  (PrivMode.from_u64 ((c.mstatus >>> 11) &&& 0b11)).getD .User

/-- `CsrFile::set_mpp`. -/
def set_mpp (c : CsrFile) (mode : PrivMode) : CsrFile :=
  { c with mstatus := (c.mstatus &&& (M64 - 1 - MSTATUS_MPP)) ||| (mode.toNat <<< 11) }

/-- `CsrFile::spp`. -/
def spp (c : CsrFile) : PrivMode :=
  if c.mstatus &&& MSTATUS_SPP ≠ 0 then .Supervisor else .User

/-- `CsrFile::set_spp`. -/
def set_spp (c : CsrFile) (mode : PrivMode) : CsrFile :=
  if mode = .Supervisor then
    { c with mstatus := c.mstatus ||| MSTATUS_SPP }
  else
    { c with mstatus := c.mstatus &&& (M64 - 1 - MSTATUS_SPP) }

/-- `CsrFile::should_delegate_exception`. -/
def should_delegate_exception (c : CsrFile) (cause : Nat) : Bool :=
  if c.priv_mode = .Machine then false
  else c.medeleg &&& (1 <<< cause) ≠ 0

/-- `CsrFile::should_delegate_interrupt`. -/
def should_delegate_interrupt (c : CsrFile) (cause : Nat) : Bool :=
  if c.priv_mode = .Machine then false
  else c.mideleg &&& (1 <<< cause) ≠ 0

/-- `SSTATUS_MASK` from `CsrFile::sstatus`. -/
def SSTATUS_MASK : Nat :=
  (1 <<< 1) ||| (1 <<< 5) ||| (1 <<< 8) ||| (1 <<< 18) ||| (1 <<< 19) |||
  (0b11 <<< 13) ||| (0b11 <<< 15) ||| (1 <<< 63) ||| (0b1111 <<< 32)

/-- `CsrFile::sstatus`. -/
def sstatus (c : CsrFile) : Nat := c.mstatus &&& SSTATUS_MASK

/-- `SSTATUS_WRITABLE` from `CsrFile::write_sstatus`. -/
def SSTATUS_WRITABLE : Nat :=
  (1 <<< 1) ||| (1 <<< 5) ||| (1 <<< 8) ||| (1 <<< 18) ||| (1 <<< 19)

/-- `CsrFile::write_sstatus`. -/
def write_sstatus (c : CsrFile) (value : Nat) : CsrFile :=
  { c with mstatus :=
      (c.mstatus &&& (M64 - 1 - SSTATUS_WRITABLE)) ||| (value &&& SSTATUS_WRITABLE) }

/-- `SIP_MASK` (SSIP, STIP, SEIP). -/
def SIP_MASK : Nat := (1 <<< 1) ||| (1 <<< 5) ||| (1 <<< 9)

/-- `CsrFile::sip`. -/
def sip (c : CsrFile) : Nat := c.mip &&& SIP_MASK

/-- `CsrFile::write_sip` (only SSIP writable). -/
def write_sip (c : CsrFile) (value : Nat) : CsrFile :=
  { c with mip := (c.mip &&& (M64 - 1 - (1 <<< 1))) ||| (value &&& (1 <<< 1)) }

/-- `CsrFile::sie`. -/
def sie (c : CsrFile) : Nat := c.mie &&& SIP_MASK

/-- `CsrFile::write_sie`. -/
def write_sie (c : CsrFile) (value : Nat) : CsrFile :=
  { c with mie := (c.mie &&& (M64 - 1 - SIP_MASK)) ||| (value &&& SIP_MASK) }

/-- `CsrFile::check_csr_privilege`. -/
def check_csr_privilege (c : CsrFile) (csr : Nat) : Except CsrError Unit :=
  let priv_level := (csr >>> 8) &&& 0x3
  match priv_level with
  | 0 => if c.priv_mode.toNat < PrivMode.User.toNat then
           .error (.PrivilegeViolation csr) else .ok ()
  | 1 => if c.priv_mode.toNat < PrivMode.Supervisor.toNat then
           .error (.PrivilegeViolation csr) else .ok ()
  | 3 => if c.priv_mode.toNat < PrivMode.Machine.toNat then
           .error (.PrivilegeViolation csr) else .ok ()
  | _ => .error (.UnsupportedRead csr)

/-- `CsrFile::read`. -/
def read (c : CsrFile) (csr : Nat) : Except CsrError Nat := do
  let _ ← c.check_csr_privilege csr
  match csr with
  | 0x100 => .ok c.sstatus
  | 0x104 => .ok c.sie
  | 0x105 => .ok c.stvec
  | 0x140 => .ok c.sscratch
  | 0x141 => .ok c.sepc
  | 0x142 => .ok c.scause
  | 0x143 => .ok c.stval
  | 0x144 => .ok c.sip
  | 0x180 => .ok c.satp
  | 0xF11 => .ok 0
  | 0xF12 => .ok 0
  | 0xF13 => .ok 0
  | 0xF14 => .ok c.mhartid
  | 0x300 => .ok c.mstatus
  | 0x301 => .ok 0x8000000000141101
  | 0x302 => .ok c.medeleg
  | 0x303 => .ok c.mideleg
  | 0x304 => .ok c.mie
  | 0x305 => .ok c.mtvec
  | 0x340 => .ok c.mscratch
  | 0x341 => .ok c.mepc
  | 0x342 => .ok c.mcause
  | 0x343 => .ok c.mtval
  | 0x344 => .ok c.mip
  | 0xB00 => .ok c.cycle
  | 0xB02 => .ok c.time
  | 0xC00 => .ok c.cycle
  | 0xC01 => .ok c.time
  | 0xC02 => .ok c.cycle
  | 0x3A0 => .ok (c.pmpcfg0 % 2 ^ 8)
  | 0x3B0 => .ok c.pmpaddr0
  | _ => .error (.UnsupportedRead csr)

/-- `MSTATUS_WRITABLE` mask from the `0x300` write arm. -/
def MSTATUS_WRITABLE : Nat :=
  (1 <<< 1) ||| (1 <<< 3) ||| (1 <<< 5) ||| (1 <<< 7) ||| (1 <<< 8) |||
  (0b11 <<< 11) ||| (1 <<< 17) ||| (1 <<< 18) ||| (1 <<< 19)

/-- `MIP_WRITABLE` mask from the `0x344` write arm (SSIP, MSIP). -/
def MIP_WRITABLE : Nat := (1 <<< 1) ||| (1 <<< 3)

/-- `CsrFile::write`.  Note the `0x180` (satp) arm: the source only stores the
value when the mode field (bits 63:60) is zero — "Silently ignore writes with
non-zero mode until Sv39 is implemented". -/
def write (c : CsrFile) (csr : Nat) (value : Nat) : Except CsrError CsrFile := do
  let _ ← c.check_csr_privilege csr
  if (csr >>> 10) = 0b11 then
    .ok c
  else
    match csr with
    | 0x100 => .ok (c.write_sstatus value)
    | 0x104 => .ok (c.write_sie value)
    | 0x105 => .ok { c with stvec := value }
    | 0x140 => .ok { c with sscratch := value }
    | 0x141 => .ok { c with sepc := value &&& (M64 - 2) }
    | 0x142 => .ok { c with scause := value }
    | 0x143 => .ok { c with stval := value }
    | 0x144 => .ok (c.write_sip value)
    | 0x180 =>
        let mode := value >>> 60
        if mode = 0 then .ok { c with satp := value } else .ok c
    | 0x300 => .ok { c with mstatus :=
        (c.mstatus &&& (M64 - 1 - MSTATUS_WRITABLE)) ||| (value &&& MSTATUS_WRITABLE) }
    | 0x302 => .ok { c with medeleg := value }
    | 0x303 => .ok { c with mideleg := value }
    | 0x304 => .ok { c with mie := value }
    | 0x305 => .ok { c with mtvec := value }
    | 0x340 => .ok { c with mscratch := value }
    | 0x341 => .ok { c with mepc := value &&& (M64 - 2) }
    | 0x342 => .ok { c with mcause := value }
    | 0x343 => .ok { c with mtval := value }
    | 0x344 => .ok { c with mip :=
        (c.mip &&& (M64 - 1 - MIP_WRITABLE)) ||| (value &&& MIP_WRITABLE) }
    | 0x3A0 => .ok { c with pmpcfg0 := value % 2 ^ 8 }
    | 0x3B0 => .ok { c with pmpaddr0 := value }
    | _ => .error (.UnsupportedWrite csr)

/-- `CsrFile::set_bits`. -/
def set_bits (c : CsrFile) (csr : Nat) (msk : Nat) : Except CsrError CsrFile := do
  let current ← c.read csr
  c.write csr (current ||| msk)

/-- `CsrFile::clear_bits`.  Rust computes `current & !mask` on `u64`. -/
def clear_bits (c : CsrFile) (csr : Nat) (msk : Nat) : Except CsrError CsrFile := do
  let current ← c.read csr
  c.write csr (current &&& (M64 - 1 - mask64 msk))

/-- `CsrFile::check_pending_interrupt`. -/
def check_pending_interrupt (c : CsrFile) : Option Nat :=
  let pending_enabled := c.mip &&& c.mie
  if pending_enabled = 0 then
    none
  else
    let interrupts_enabled : Bool :=
      match c.priv_mode with
      | .Machine => c.mstatus &&& MSTATUS_MIE ≠ 0
      | .Supervisor => c.mstatus &&& MSTATUS_SIE ≠ 0
      | .User => true
    if !interrupts_enabled then
      none
    else if pending_enabled &&& (1 <<< 11) ≠ 0 then some 11
    else if pending_enabled &&& (1 <<< 3) ≠ 0 then some 3
    else if pending_enabled &&& (1 <<< 7) ≠ 0 then some 7
    else if pending_enabled &&& (1 <<< 9) ≠ 0 then some 9
    else if pending_enabled &&& (1 <<< 1) ≠ 0 then some 1
    else if pending_enabled &&& (1 <<< 5) ≠ 0 then some 5
    else none

end CsrFile

/-! ## Physical memory — `src/mem/mod.rs` -/

/-- `enum MemError`.  The `mem/mod.rs` revision in src/ declares only `Oob`;
the three page-fault variants are required by `trap.rs`'s
`impl WithPc for Result<T, MemError>`, which pattern-matches them, so the
revision of `mem` defining them is missing from src/ and they are declared
here from that use site. -/
inductive MemError where
  | Oob (addr : Nat)
  | InstructionPageFault (addr : Nat)
  | LoadPageFault (addr : Nat)
  | StorePageFault (addr : Nat)
deriving DecidableEq, Repr

/-- `struct Memory { data: Vec<u8>, base: u64 }`; bytes kept as `Nat < 256`. -/
structure Memory where
  data : List Nat
  base : Nat
deriving DecidableEq, Repr

namespace Memory

/-- `Memory::new`. -/
def new (bytes : Nat) : Memory :=
  { data := List.replicate bytes 0, base := 0x80000000 }

/-- `Memory::check_oob`: subtract the base (failing below it) and bounds-check
the full `size`-byte range, returning the offset into `data`. -/
def check_oob (m : Memory) (addr size : Nat) : Except MemError Nat :=
  if addr < m.base then
    .error (.Oob addr)
  else
    let a := addr - m.base
    if a + size > m.data.length then .error (.Oob addr) else .ok a

/-- Little-endian read of `n` bytes at a checked offset
(`uN::from_le_bytes`). -/
def readBytesLE (m : Memory) (off : Nat) : Nat → Nat
  | 0 => 0
  | n + 1 => m.data.getD off 0 + 256 * readBytesLE m (off + 1) n

/-- Little-endian write of the low `n` bytes of `v` at a checked offset
(`copy_from_slice(&v.to_le_bytes())`). -/
def writeBytesLE (m : Memory) (off v : Nat) : Nat → Memory
  | 0 => m
  | n + 1 => writeBytesLE { m with data := m.data.set off (v % 256) } (off + 1) (v / 256) n

/-- `Memory::read_u8_phys`. -/
def read_u8_phys (m : Memory) (paddr : Nat) : Except MemError Nat := do
  let off ← m.check_oob paddr 1
  .ok (m.readBytesLE off 1)

/-- `Memory::read_u16_phys`. -/
def read_u16_phys (m : Memory) (paddr : Nat) : Except MemError Nat := do
  let off ← m.check_oob paddr 2
  .ok (m.readBytesLE off 2)

/-- `Memory::read_u32_phys`. -/
def read_u32_phys (m : Memory) (paddr : Nat) : Except MemError Nat := do
  let off ← m.check_oob paddr 4
  .ok (m.readBytesLE off 4)

/-- `Memory::read_u64_phys`. -/
def read_u64_phys (m : Memory) (paddr : Nat) : Except MemError Nat := do
  let off ← m.check_oob paddr 8
  .ok (m.readBytesLE off 8)

/-- `Memory::write_u8_phys`. -/
def write_u8_phys (m : Memory) (paddr v : Nat) : Except MemError Memory := do
  let off ← m.check_oob paddr 1
  .ok (m.writeBytesLE off v 1)

/-- `Memory::write_u16_phys`. -/
def write_u16_phys (m : Memory) (paddr v : Nat) : Except MemError Memory := do
  let off ← m.check_oob paddr 2
  .ok (m.writeBytesLE off v 2)

/-- `Memory::write_u32_phys`. -/
def write_u32_phys (m : Memory) (paddr v : Nat) : Except MemError Memory := do
  let off ← m.check_oob paddr 4
  .ok (m.writeBytesLE off v 4)

/-- `Memory::write_u64_phys`. -/
def write_u64_phys (m : Memory) (paddr v : Nat) : Except MemError Memory := do
  let off ← m.check_oob paddr 8
  .ok (m.writeBytesLE off v 8)

end Memory

/-! ## MMU and TLB (spec-modelled) -/

/-- Modelled from the spec: a TLB entry, "keyed by (virtual-page-number,
access-kind, privilege) with the physical page number, page-size class, and a
permission digest" (§4.C); the `mmu` module is absent from src/. -/
structure TlbEntry where
  vpn : Nat
  isFetch : Bool
  isWrite : Bool
  priv : PrivMode
  ppn : Nat
  level : Nat
deriving DecidableEq, Repr

/-- Modelled from the spec: `struct Mmu` — the translation cache.  The `mmu`
module is absent from src/ (only its callers in `cpu/exec.rs`, `cpu/mod.rs`
and `mem/mod.rs` are present). -/
structure Mmu where
  tlb : List TlbEntry
deriving DecidableEq, Repr

namespace Mmu

/-- `Mmu::new`. -/
def new : Mmu := { tlb := [] }

/-- Modelled from the spec: `Mmu::flush_tlb` — "any write to `satp` flushes
all entries; the supervisor fence instruction also flushes … a full flush is
permitted" (§4.C).  The source always calls it as `flush_tlb(None)`. -/
def flush_tlb (m : Mmu) (_scope : Option Nat) : Mmu := { m with tlb := [] }

end Mmu

/-- The page-fault `MemError` matching the access kind (spec §7: "page-table
-walk failures become the corresponding Instruction/Load/Store PageFault
carrying the faulting virtual address"). -/
def walkFault (isFetch isWrite : Bool) (vaddr : Nat) : MemError :=
  if isFetch then .InstructionPageFault vaddr
  else if isWrite then .StorePageFault vaddr
  else .LoadPageFault vaddr

/-- The 9-bit virtual-page-number slice `VPN[i]` of an Sv39 virtual address. -/
def vpnSlice (vaddr i : Nat) : Nat := (vaddr >>> (12 + 9 * i)) &&& 0x1ff

/-- Modelled from the spec (§4.C): one level of the Sv39 page-table walk.
`level` counts down from 2; `base` is the physical address of the current
page table.  Checks: `V` clear or `R==0 && W==1` faults; a leaf
(`R|W|X` nonzero) gets the access-kind permission checks (fetch needs `X`,
load needs `R`, store needs `W`, User mode needs `U`); a superpage leaf at
level `i > 0` takes its low `i*9` physical-page-number bits from the virtual
address; a non-leaf descends, and running out of levels faults.  The source
`Mmu::translate` signature receives no `mstatus`, so the `MPRV`/`SUM`/`MXR`
refinements of those checks are not representable: loads require `R` outright
and Supervisor accesses ignore `U`.  A/D bits are neither checked nor updated
(the spec permits a fixed policy). -/
def sv39_walk (mem : Memory) (vaddr : Nat) (isFetch isWrite : Bool)
    (priv : PrivMode) : Nat → Nat → Except MemError Nat
  | level, base => do
    let pteAddr := base + vpnSlice vaddr level * 8
    let pte ← match mem.read_u64_phys pteAddr with
      | .ok p => Except.ok p
      | .error _ => Except.error (walkFault isFetch isWrite vaddr)
    let v := pte &&& 1
    let r := (pte >>> 1) &&& 1
    let w := (pte >>> 2) &&& 1
    let x := (pte >>> 3) &&& 1
    let u := (pte >>> 4) &&& 1
    let ppn := (pte >>> 10) &&& (2 ^ 44 - 1)
    if v = 0 then
      .error (walkFault isFetch isWrite vaddr)
    else if r = 0 ∧ w = 1 then
      .error (walkFault isFetch isWrite vaddr)
    else if r ≠ 0 ∨ w ≠ 0 ∨ x ≠ 0 then
      -- leaf PTE: permission checks, then superpage-aware concatenation
      if isFetch ∧ x = 0 then
        .error (walkFault isFetch isWrite vaddr)
      else if isWrite ∧ w = 0 then
        .error (walkFault isFetch isWrite vaddr)
      else if ¬ isFetch ∧ ¬ isWrite ∧ r = 0 then
        .error (walkFault isFetch isWrite vaddr)
      else if priv = .User ∧ u = 0 then
        .error (walkFault isFetch isWrite vaddr)
      else
        let lowBits := 9 * level
        let outPpn := ((ppn >>> lowBits) <<< lowBits) |||
          ((vaddr >>> 12) &&& (2 ^ lowBits - 1))
        .ok (outPpn * 4096 + (vaddr &&& 0xfff))
    else
      match level with
      | 0 => .error (walkFault isFetch isWrite vaddr)
      | level' + 1 => sv39_walk mem vaddr isFetch isWrite priv level' (ppn * 4096)

/-- Modelled from the spec (§4.C): `Mmu::translate(vaddr, satp, is_fetch,
is_write, priv_mode, mem)`.  "If `satp.mode` == 0 (bare) OR effective mode is
Machine …, return identity", otherwise the Sv39 walk; on success a TLB entry
is inserted.  Returns the result together with the updated Mmu. -/
def Mmu.translate (mmu : Mmu) (vaddr satp : Nat) (isFetch isWrite : Bool)
    (priv : PrivMode) (mem : Memory) : Except MemError Nat × Mmu :=
  let mode := satp >>> 60
  if mode = 0 ∨ priv = .Machine then
    (.ok vaddr, mmu)
  else
    let rootBase := (satp &&& (2 ^ 44 - 1)) * 4096
    match sv39_walk mem vaddr isFetch isWrite priv 2 rootBase with
    | .ok pa =>
        (.ok pa,
         { mmu with tlb :=
            { vpn := vaddr >>> 12, isFetch := isFetch, isWrite := isWrite,
              priv := priv, ppn := pa >>> 12, level := 0 } :: mmu.tlb })
    | .error e => (.error e, mmu)

namespace Memory

/-- `Memory::translate_addr`: delegates to `Mmu::translate` and collapses
every MMU error into `MemError::Oob(vaddr)` — the source is
`mmu.translate(..).map_err(|_| MemError::Oob(vaddr))`. -/
def translate_addr (m : Memory) (vaddr satp : Nat) (isFetch isWrite : Bool)
    (priv : PrivMode) (mmu : Mmu) : Except MemError Nat × Mmu :=
  match Mmu.translate mmu vaddr satp isFetch isWrite priv m with
  | (.ok pa, mmu') => (.ok pa, mmu')
  | (.error _, mmu') => (.error (.Oob vaddr), mmu')

/-- `Memory::read_u8` (translate, then physical read). -/
def read_u8 (m : Memory) (vaddr satp : Nat) (priv : PrivMode) (mmu : Mmu) :
    Except MemError Nat × Mmu :=
  match m.translate_addr vaddr satp false false priv mmu with
  | (.ok pa, mmu') => (m.read_u8_phys pa, mmu')
  | (.error e, mmu') => (.error e, mmu')

/-- `Memory::read_u16`. -/
def read_u16 (m : Memory) (vaddr satp : Nat) (priv : PrivMode) (mmu : Mmu) :
    Except MemError Nat × Mmu :=
  match m.translate_addr vaddr satp false false priv mmu with
  | (.ok pa, mmu') => (m.read_u16_phys pa, mmu')
  | (.error e, mmu') => (.error e, mmu')

/-- `Memory::read_u32`. -/
def read_u32 (m : Memory) (vaddr satp : Nat) (priv : PrivMode) (mmu : Mmu) :
    Except MemError Nat × Mmu :=
  match m.translate_addr vaddr satp false false priv mmu with
  | (.ok pa, mmu') => (m.read_u32_phys pa, mmu')
  | (.error e, mmu') => (.error e, mmu')

/-- `Memory::read_u64`. -/
def read_u64 (m : Memory) (vaddr satp : Nat) (priv : PrivMode) (mmu : Mmu) :
    Except MemError Nat × Mmu :=
  match m.translate_addr vaddr satp false false priv mmu with
  | (.ok pa, mmu') => (m.read_u64_phys pa, mmu')
  | (.error e, mmu') => (.error e, mmu')

/-- `Memory::write_u8` (translate for write, then physical write). -/
def write_u8 (m : Memory) (vaddr v satp : Nat) (priv : PrivMode) (mmu : Mmu) :
    Except MemError Memory × Mmu :=
  match m.translate_addr vaddr satp false true priv mmu with
  | (.ok pa, mmu') => (m.write_u8_phys pa v, mmu')
  | (.error e, mmu') => (.error e, mmu')

/-- `Memory::write_u16`. -/
def write_u16 (m : Memory) (vaddr v satp : Nat) (priv : PrivMode) (mmu : Mmu) :
    Except MemError Memory × Mmu :=
  match m.translate_addr vaddr satp false true priv mmu with
  | (.ok pa, mmu') => (m.write_u16_phys pa v, mmu')
  | (.error e, mmu') => (.error e, mmu')

/-- Modelled from the spec (§4.E step 2): `Memory::read_u32_exec`, the
fetch-path read called by `Machine::step` but absent from the `mem/mod.rs`
revision in src/.  It translates the PC for fetch (execute-check) access and
reads a 32-bit little-endian word; a walk failure is surfaced as the
fetch-kind fault rather than collapsed to `Oob`, which is what makes
`trap.rs`'s `InstructionPageFault` conversion arm reachable. -/
def read_u32_exec (m : Memory) (vaddr satp : Nat) (priv : PrivMode) (mmu : Mmu) :
    Except MemError Nat × Mmu :=
  match Mmu.translate mmu vaddr satp true false priv m with
  | (.ok pa, mmu') => (m.read_u32_phys pa, mmu')
  | (.error e, mmu') => (.error e, mmu')

end Memory

/-! ## Trap taxonomy — `src/cpu/trap.rs` -/

/-- `enum Trap`. -/
inductive Trap where
  | IllegalInstruction (pc : Nat) (inst : Nat)
  | Mem (pc : Nat) (err : MemError)
  | Breakpoint (pc : Nat)
  | LoadMisaligned (pc : Nat) (addr : Nat)
  | StoreMisaligned (pc : Nat) (addr : Nat)
  | Ecall (pc : Nat)
  | EcallFromS (pc : Nat)
  | EcallFromM (pc : Nat)
  | InstructionPageFault (pc : Nat) (addr : Nat)
  | LoadPageFault (pc : Nat) (addr : Nat)
  | StorePageFault (pc : Nat) (addr : Nat)
  | MachineSoftwareInterrupt (pc : Nat)
  | MachineTimerInterrupt (pc : Nat)
  | MachineExternalInterrupt (pc : Nat)
  | SupervisorSoftwareInterrupt (pc : Nat)
  | SupervisorTimerInterrupt (pc : Nat)
  | SupervisorExternalInterrupt (pc : Nat)
deriving DecidableEq, Repr

namespace causes

/-- `mod causes` — RISC-V exception cause codes. -/
def INSTRUCTION_ADDRESS_MISALIGNED : Nat := 0
def INSTRUCTION_ACCESS_FAULT : Nat := 1
def ILLEGAL_INSTRUCTION : Nat := 2
def BREAKPOINT : Nat := 3
def LOAD_ADDRESS_MISALIGNED : Nat := 4
def LOAD_ACCESS_FAULT : Nat := 5
def STORE_ADDRESS_MISALIGNED : Nat := 6
def STORE_ACCESS_FAULT : Nat := 7
def ECALL_U : Nat := 8
def ECALL_S : Nat := 9
def ECALL_M : Nat := 11
def INSTRUCTION_PAGE_FAULT : Nat := 12
def LOAD_PAGE_FAULT : Nat := 13
def STORE_PAGE_FAULT : Nat := 15
def SSI : Nat := 1
def MSI : Nat := 3
def STI : Nat := 5
def MTI : Nat := 7
def SEI : Nat := 9
def MEI : Nat := 11

end causes

namespace Trap

/-- `Trap::cause`. -/
def cause : Trap → Nat
  | .IllegalInstruction .. => causes.ILLEGAL_INSTRUCTION
  | .Breakpoint .. => causes.BREAKPOINT
  | .LoadMisaligned .. => causes.LOAD_ADDRESS_MISALIGNED
  | .StoreMisaligned .. => causes.STORE_ADDRESS_MISALIGNED
  | .EcallFromS .. => causes.ECALL_S
  | .EcallFromM .. => causes.ECALL_M
  | .Ecall .. => causes.ECALL_U
  | .InstructionPageFault .. => causes.INSTRUCTION_PAGE_FAULT
  | .LoadPageFault .. => causes.LOAD_PAGE_FAULT
  | .StorePageFault .. => causes.STORE_PAGE_FAULT
  | .Mem .. => causes.LOAD_ACCESS_FAULT
  | .SupervisorSoftwareInterrupt .. => causes.SSI
  | .MachineSoftwareInterrupt .. => causes.MSI
  | .SupervisorTimerInterrupt .. => causes.STI
  | .MachineTimerInterrupt .. => causes.MTI
  | .SupervisorExternalInterrupt .. => causes.SEI
  | .MachineExternalInterrupt .. => causes.MEI

/-- `Trap::is_interrupt`. -/
def is_interrupt : Trap → Bool
  | .MachineSoftwareInterrupt .. | .MachineTimerInterrupt ..
  | .MachineExternalInterrupt .. | .SupervisorSoftwareInterrupt ..
  | .SupervisorTimerInterrupt .. | .SupervisorExternalInterrupt .. => true
  | _ => false

/-- `Trap::tval`. -/
def tval : Trap → Nat
  | .IllegalInstruction _ inst => inst
  | .LoadMisaligned _ addr => addr
  | .StoreMisaligned _ addr => addr
  | .InstructionPageFault _ addr => addr
  | .LoadPageFault _ addr => addr
  | .StorePageFault _ addr => addr
  | .Mem .. => 0
  | _ => 0

/-- `Trap::pc`. -/
def pc : Trap → Nat
  | .IllegalInstruction p _ => p
  | .Mem p _ => p
  | .Breakpoint p => p
  | .LoadMisaligned p _ => p
  | .StoreMisaligned p _ => p
  | .Ecall p => p
  | .EcallFromS p => p
  | .EcallFromM p => p
  | .InstructionPageFault p _ => p
  | .LoadPageFault p _ => p
  | .StorePageFault p _ => p
  | .MachineSoftwareInterrupt p => p
  | .MachineTimerInterrupt p => p
  | .MachineExternalInterrupt p => p
  | .SupervisorSoftwareInterrupt p => p
  | .SupervisorTimerInterrupt p => p
  | .SupervisorExternalInterrupt p => p

end Trap

/-- `impl WithPc for Result<T, MemError>`: page-fault memory errors become the
corresponding page-fault traps; every other `MemError` becomes `Trap::Mem`. -/
def memWithPc (pcv : Nat) : MemError → Trap
  | .InstructionPageFault addr => .InstructionPageFault pcv addr
  | .LoadPageFault addr => .LoadPageFault pcv addr
  | .StorePageFault addr => .StorePageFault pcv addr
  | e => .Mem pcv e

/-- `impl WithPc for Result<T, CsrError>`: CSR errors become
`IllegalInstruction` with encoding 0. -/
def csrWithPc (pcv : Nat) (_e : CsrError) : Trap := .IllegalInstruction pcv 0

/-! ## Decoder — `src/cpu/decode.rs` -/

/-- `enum DecodeError`. -/
inductive DecodeError where
  | InvalidOpcode (inst : Nat)
  | InvalidFunct (inst : Nat)
deriving DecidableEq, Repr

/-- `enum Instr`.  The variants through `Fence` are the ones declared by the
`decode.rs` revision in src/.  The M-extension variants (`Mul` … `Remuw`) and
`Sret`/`Sfence`/`Wfi` are matched by `cpu/exec.rs` but absent from that
enum — the enum revision defining them is missing from src/, so they are
declared here from their `exec.rs` use sites. -/
inductive Instr where
  | Add (rd rs1 rs2 : Nat)
  | Sub (rd rs1 rs2 : Nat)
  | Xor (rd rs1 rs2 : Nat)
  | Or (rd rs1 rs2 : Nat)
  | And (rd rs1 rs2 : Nat)
  | Sll (rd rs1 rs2 : Nat)
  | Srl (rd rs1 rs2 : Nat)
  | Sra (rd rs1 rs2 : Nat)
  | Slt (rd rs1 rs2 : Nat)
  | Sltu (rd rs1 rs2 : Nat)
  | Addi (rd rs1 : Nat) (imm : Int)
  | Xori (rd rs1 : Nat) (imm : Int)
  | Ori (rd rs1 : Nat) (imm : Int)
  | Andi (rd rs1 : Nat) (imm : Int)
  | Slli (rd rs1 shamt : Nat)
  | Srli (rd rs1 shamt : Nat)
  | Srai (rd rs1 shamt : Nat)
  | Slti (rd rs1 : Nat) (imm : Int)
  | Sltiu (rd rs1 : Nat) (imm : Int)
  | LB (rd rs1 : Nat) (off : Int)
  | LBU (rd rs1 : Nat) (off : Int)
  | LH (rd rs1 : Nat) (off : Int)
  | LHU (rd rs1 : Nat) (off : Int)
  | LW (rd rs1 : Nat) (off : Int)
  | SB (rs1 rs2 : Nat) (off : Int)
  | SH (rs1 rs2 : Nat) (off : Int)
  | SW (rs1 rs2 : Nat) (off : Int)
  | Beq (rs1 rs2 : Nat) (off : Int)
  | Bne (rs1 rs2 : Nat) (off : Int)
  | Blt (rs1 rs2 : Nat) (off : Int)
  | Bge (rs1 rs2 : Nat) (off : Int)
  | Bltu (rs1 rs2 : Nat) (off : Int)
  | Bgeu (rs1 rs2 : Nat) (off : Int)
  | Jal (rd : Nat) (off : Int)
  | Jalr (rd rs1 : Nat) (off : Int)
  | Lui (rd : Nat) (imm : Int)
  | Auipc (rd : Nat) (imm : Int)
  | Ecall
  | Ebreak
  | Addiw (rd rs1 : Nat) (imm : Int)
  | Slliw (rd rs1 shamt : Nat)
  | Srliw (rd rs1 shamt : Nat)
  | Sraiw (rd rs1 shamt : Nat)
  | Addw (rd rs1 rs2 : Nat)
  | Subw (rd rs1 rs2 : Nat)
  | Sllw (rd rs1 rs2 : Nat)
  | Srlw (rd rs1 rs2 : Nat)
  | Sraw (rd rs1 rs2 : Nat)
  | LWU (rd rs1 : Nat) (off : Int)
  | LD (rd rs1 : Nat) (off : Int)
  | SD (rs1 rs2 : Nat) (off : Int)
  | Csrrw (rd csr rs1 : Nat)
  | Csrrs (rd csr rs1 : Nat)
  | Csrrc (rd csr rs1 : Nat)
  | Csrrwi (rd csr uimm : Nat)
  | Csrrsi (rd csr uimm : Nat)
  | Csrrci (rd csr uimm : Nat)
  | Mret
  | Fence
  | Mul (rd rs1 rs2 : Nat)
  | Mulh (rd rs1 rs2 : Nat)
  | Mulhsu (rd rs1 rs2 : Nat)
  | Mulhu (rd rs1 rs2 : Nat)
  | Div (rd rs1 rs2 : Nat)
  | Divu (rd rs1 rs2 : Nat)
  | Rem (rd rs1 rs2 : Nat)
  | Remu (rd rs1 rs2 : Nat)
  | Mulw (rd rs1 rs2 : Nat)
  | Divw (rd rs1 rs2 : Nat)
  | Divuw (rd rs1 rs2 : Nat)
  | Remw (rd rs1 rs2 : Nat)
  | Remuw (rd rs1 rs2 : Nat)
  | Sret
  | Sfence
  | Wfi

/-- `decode.rs`'s local `sign_extend` on an already-nonnegative bit pattern. -/
def decodeSext (value bits : Nat) : Int := sextBits value bits

/-- `pub fn decode(_pc, inst)` — the decoder exactly as in the `decode.rs`
revision under src/ (in particular it has no arms for the M-extension
`funct7 == 0x01` encodings nor for SRET/WFI/SFENCE.VMA). -/
def decode (_pc : Nat) (inst : Nat) : Except DecodeError Instr :=
  let opcode := inst &&& 0x7f
  match opcode with
  | 0b0110011 =>
      let rd := (inst >>> 7) &&& 0x1f
      let funct3 := (inst >>> 12) &&& 0x7
      let rs1 := (inst >>> 15) &&& 0x1f
      let rs2 := (inst >>> 20) &&& 0x1f
      let funct7 := (inst >>> 25) &&& 0x7f
      match funct3, funct7 with
      | 0x0, 0x00 => .ok (.Add rd rs1 rs2)
      | 0x0, 0x20 => .ok (.Sub rd rs1 rs2)
      | 0x4, 0x00 => .ok (.Xor rd rs1 rs2)
      | 0x6, 0x00 => .ok (.Or rd rs1 rs2)
      | 0x7, 0x00 => .ok (.And rd rs1 rs2)
      | 0x1, 0x00 => .ok (.Sll rd rs1 rs2)
      | 0x5, 0x00 => .ok (.Srl rd rs1 rs2)
      | 0x5, 0x20 => .ok (.Sra rd rs1 rs2)
      | 0x2, 0x00 => .ok (.Slt rd rs1 rs2)
      | 0x3, 0x00 => .ok (.Sltu rd rs1 rs2)
      | _, _ => .error (.InvalidOpcode inst)
  | 0b0010011 =>
      let rd := (inst >>> 7) &&& 0x1f
      let funct3 := (inst >>> 12) &&& 0x7
      let rs1 := (inst >>> 15) &&& 0x1f
      let imm := decodeSext (inst >>> 20) 12
      match funct3 with
      | 0x0 => .ok (.Addi rd rs1 imm)
      | 0x4 => .ok (.Xori rd rs1 imm)
      | 0x6 => .ok (.Ori rd rs1 imm)
      | 0x7 => .ok (.Andi rd rs1 imm)
      | 0x1 => .ok (.Slli rd rs1 (ofI64 imm &&& 0x3f))
      | 0x5 =>
          let shamt := ofI64 imm &&& 0x3f
          let funct7 := ofI64 (Int.fdiv imm 64) &&& 0x7f
          match funct7 with
          | 0x00 => .ok (.Srli rd rs1 shamt)
          | 0x20 => .ok (.Srai rd rs1 shamt)
          | _ => .error (.InvalidOpcode inst)
      | 0x2 => .ok (.Slti rd rs1 imm)
      | 0x3 => .ok (.Sltiu rd rs1 imm)
      | _ => .error (.InvalidOpcode inst)
  | 0b0000011 =>
      let rd := (inst >>> 7) &&& 0x1f
      let funct3 := (inst >>> 12) &&& 0x7
      let rs1 := (inst >>> 15) &&& 0x1f
      let imm := decodeSext (inst >>> 20) 12
      match funct3 with
      | 0x0 => .ok (.LB rd rs1 imm)
      | 0x4 => .ok (.LBU rd rs1 imm)
      | 0x1 => .ok (.LH rd rs1 imm)
      | 0x5 => .ok (.LHU rd rs1 imm)
      | 0x2 => .ok (.LW rd rs1 imm)
      | 0x6 => .ok (.LWU rd rs1 imm)
      | 0x3 => .ok (.LD rd rs1 imm)
      | _ => .error (.InvalidOpcode inst)
  | 0b0100011 =>
      let funct3 := (inst >>> 12) &&& 0x7
      let rs1 := (inst >>> 15) &&& 0x1f
      let rs2 := (inst >>> 20) &&& 0x1f
      let imm4_0 := (inst >>> 7) &&& 0x1f
      let imm11_5 := (inst >>> 25) &&& 0x7f
      let imm := decodeSext ((imm11_5 <<< 5) ||| imm4_0) 12
      match funct3 with
      | 0x0 => .ok (.SB rs1 rs2 imm)
      | 0x1 => .ok (.SH rs1 rs2 imm)
      | 0x2 => .ok (.SW rs1 rs2 imm)
      | 0x3 => .ok (.SD rs1 rs2 imm)
      | _ => .error (.InvalidOpcode inst)
  | 0b1100011 =>
      let funct3 := (inst >>> 12) &&& 0x7
      let rs1 := (inst >>> 15) &&& 0x1f
      let rs2 := (inst >>> 20) &&& 0x1f
      let imm11 := (inst >>> 7) &&& 0x1
      let imm4_1 := (inst >>> 8) &&& 0xf
      let imm10_5 := (inst >>> 25) &&& 0x3f
      let imm12 := (inst >>> 31) &&& 0x1
      let imm := decodeSext
        ((imm12 <<< 12) ||| (imm11 <<< 11) ||| (imm10_5 <<< 5) ||| (imm4_1 <<< 1)) 13
      match funct3 with
      | 0x0 => .ok (.Beq rs1 rs2 imm)
      | 0x1 => .ok (.Bne rs1 rs2 imm)
      | 0x4 => .ok (.Blt rs1 rs2 imm)
      | 0x5 => .ok (.Bge rs1 rs2 imm)
      | 0x6 => .ok (.Bltu rs1 rs2 imm)
      | 0x7 => .ok (.Bgeu rs1 rs2 imm)
      | _ => .error (.InvalidOpcode inst)
  | 0b0110111 =>
      let rd := (inst >>> 7) &&& 0x1f
      .ok (.Lui rd (decodeSext (inst &&& 0xfffff000) 32))
  | 0b0010111 =>
      let rd := (inst >>> 7) &&& 0x1f
      .ok (.Auipc rd (decodeSext (inst &&& 0xfffff000) 32))
  | 0b1101111 =>
      let rd := (inst >>> 7) &&& 0x1f
      let imm19_12 := (inst >>> 12) &&& 0xff
      let imm11 := (inst >>> 20) &&& 0x1
      let imm10_1 := (inst >>> 21) &&& 0x3ff
      let imm20 := (inst >>> 31) &&& 0x1
      let imm := decodeSext
        ((imm20 <<< 20) ||| (imm19_12 <<< 12) ||| (imm11 <<< 11) ||| (imm10_1 <<< 1)) 21
      .ok (.Jal rd imm)
  | 0b1100111 =>
      let rd := (inst >>> 7) &&& 0x1f
      let funct3 := (inst >>> 12) &&& 0x7
      let rs1 := (inst >>> 15) &&& 0x1f
      let imm := decodeSext (inst >>> 20) 12
      match funct3 with
      | 0x0 => .ok (.Jalr rd rs1 imm)
      | _ => .error (.InvalidOpcode inst)
  | 0b1110011 =>
      let funct3 := (inst >>> 12) &&& 0x7
      match funct3 with
      | 0x0 =>
          let imm := inst >>> 20
          match imm with
          | 0x000 => .ok .Ecall
          | 0x001 => .ok .Ebreak
          | 0x302 => .ok .Mret
          | _ => .error (.InvalidOpcode inst)
      | 0x1 =>
          .ok (.Csrrw ((inst >>> 7) &&& 0x1f) (inst >>> 20) ((inst >>> 15) &&& 0x1f))
      | 0x2 =>
          .ok (.Csrrs ((inst >>> 7) &&& 0x1f) (inst >>> 20) ((inst >>> 15) &&& 0x1f))
      | 0x3 =>
          .ok (.Csrrc ((inst >>> 7) &&& 0x1f) (inst >>> 20) ((inst >>> 15) &&& 0x1f))
      | 0x5 =>
          .ok (.Csrrwi ((inst >>> 7) &&& 0x1f) (inst >>> 20) ((inst >>> 15) &&& 0x1f))
      | 0x6 =>
          .ok (.Csrrsi ((inst >>> 7) &&& 0x1f) (inst >>> 20) ((inst >>> 15) &&& 0x1f))
      | 0x7 =>
          .ok (.Csrrci ((inst >>> 7) &&& 0x1f) (inst >>> 20) ((inst >>> 15) &&& 0x1f))
      | _ => .error (.InvalidOpcode inst)
  | 0b0011011 =>
      let rd := (inst >>> 7) &&& 0x1f
      let funct3 := (inst >>> 12) &&& 0x7
      let rs1 := (inst >>> 15) &&& 0x1f
      let imm := decodeSext (inst >>> 20) 12
      match funct3 with
      | 0x0 => .ok (.Addiw rd rs1 imm)
      | 0x1 =>
          let shamt := ofI64 imm &&& 0x1f
          let funct7 := ofI64 (Int.fdiv imm 32) &&& 0x7f
          match funct7 with
          | 0x00 => .ok (.Slliw rd rs1 shamt)
          | _ => .error (.InvalidOpcode inst)
      | 0x5 =>
          let shamt := ofI64 imm &&& 0x1f
          let funct7 := ofI64 (Int.fdiv imm 32) &&& 0x7f
          match funct7 with
          | 0x00 => .ok (.Srliw rd rs1 shamt)
          | 0x20 => .ok (.Sraiw rd rs1 shamt)
          | _ => .error (.InvalidOpcode inst)
      | _ => .error (.InvalidOpcode inst)
  | 0b0111011 =>
      let rd := (inst >>> 7) &&& 0x1f
      let funct3 := (inst >>> 12) &&& 0x7
      let rs1 := (inst >>> 15) &&& 0x1f
      let rs2 := (inst >>> 20) &&& 0x1f
      let funct7 := (inst >>> 25) &&& 0x7f
      match funct3, funct7 with
      | 0x0, 0x00 => .ok (.Addw rd rs1 rs2)
      | 0x0, 0x20 => .ok (.Subw rd rs1 rs2)
      | 0x1, 0x00 => .ok (.Sllw rd rs1 rs2)
      | 0x5, 0x00 => .ok (.Srlw rd rs1 rs2)
      | 0x5, 0x20 => .ok (.Sraw rd rs1 rs2)
      | _, _ => .error (.InvalidOpcode inst)
  | 0b0001111 => .ok .Fence
  | _ => .error (.InvalidOpcode inst)

/-- `impl WithPc for Result<T, DecodeError>`. -/
def decodeWithPc (pcv : Nat) : DecodeError → Trap
  | .InvalidOpcode inst => .IllegalInstruction pcv inst
  | .InvalidFunct inst => .IllegalInstruction pcv inst

/-! ## Executor — `src/cpu/exec.rs` -/

/-- `struct Cpu { regs: [u64; 32], pc: u64, csr: CsrFile }`.  The register
array is a total map; decode only ever produces indices below 32. -/
structure Cpu where
  regs : Nat → Nat
  pc : Nat
  csr : CsrFile

/-- `enum HaltReason`. -/
inductive HaltReason where
  | HostExit (code gp : Nat)
  | MaxInsns
deriving DecidableEq, Repr

/-- `enum CpuStepResult` (`Ok(())` is `Continue`; the `Err` payloads are
`Trapped` and `Halt`). -/
inductive CpuStepResult where
  | Continue
  | Trapped (t : Trap)
  | Halt (r : HaltReason)
deriving DecidableEq, Repr

/-- The register-read closure `r` in `execute`. -/
def rreg (cpu : Cpu) (idx : Nat) : Nat := cpu.regs idx

/-- The register-write closure `w` in `execute`: writes to index 0 are
discarded ("x0 hardwired"). -/
def wreg (cpu : Cpu) (idx val : Nat) : Cpu :=
  if idx ≠ 0 then
    { cpu with regs := fun j => if j = idx then val else cpu.regs j }
  else cpu

/-- The `sign_extend` closure in `execute` (on `i64`): keep the low `bits`
bits, reinterpret signed. -/
def execSext (val : Int) (bits : Nat) : Int := sextBits (ofI64 val) bits

/-- The final `cpu.regs[0] = 0` re-pin at the bottom of `execute`. -/
def pinZero (cpu : Cpu) : Cpu :=
  { cpu with regs := fun j => if j = 0 then 0 else cpu.regs j }

/-- How an `execute` match arm leaves the function: falling through to the
x0 re-pin, an early `return Ok(())` (the host-door acknowledge path), or an
early `return Err(..)`. -/
inductive ExecFlow where
  | fall
  | earlyOk
  | err (r : CpuStepResult)

/-- Sign-extend a 32-bit result to 64 bits and reinterpret as `u64`
(`sign_extend(result as i64, 32) as u64` in the source). -/
def sext32u (result : Nat) : Nat := ofI64 (sextBits result 32)

/-- The body of `execute`: one arm per `Instr` variant, in source order.
State threads through exactly as the `&mut` mutations do, so an early error
return keeps the mutations made before it. -/
def execInstr (cpu0 : Cpu) (mem : Memory) (mmu : Mmu) (instr : Instr)
    (host_exit_addr : Option Nat) : Cpu × Memory × Mmu × ExecFlow :=
  let pc := cpu0.pc
  let satp := cpu0.csr.satp
  let priv_mode := cpu0.csr.priv_mode
  match instr with
  | .Addi rd rs1 imm =>
      let cpu := wreg cpu0 rd (add64 (rreg cpu0 rs1) (ofI64 imm))
      ({ cpu with pc := add64 pc 4 }, mem, mmu, .fall)
  | .Add rd rs1 rs2 =>
      let cpu := wreg cpu0 rd (add64 (rreg cpu0 rs1) (rreg cpu0 rs2))
      ({ cpu with pc := add64 pc 4 }, mem, mmu, .fall)
  | .Sub rd rs1 rs2 =>
      let cpu := wreg cpu0 rd (sub64 (rreg cpu0 rs1) (rreg cpu0 rs2))
      ({ cpu with pc := add64 pc 4 }, mem, mmu, .fall)
  | .Beq rs1 rs2 off =>
      let newpc := if rreg cpu0 rs1 = rreg cpu0 rs2 then add64 pc (ofI64 off)
        else add64 pc 4
      ({ cpu0 with pc := newpc }, mem, mmu, .fall)
  | .Bne rs1 rs2 off =>
      let newpc := if rreg cpu0 rs1 ≠ rreg cpu0 rs2 then add64 pc (ofI64 off)
        else add64 pc 4
      ({ cpu0 with pc := newpc }, mem, mmu, .fall)
  | .Lui rd imm =>
      let cpu := wreg cpu0 rd (ofI64 imm)
      ({ cpu with pc := add64 pc 4 }, mem, mmu, .fall)
  | .Jal rd off =>
      let cpu := wreg cpu0 rd (add64 pc 4)
      ({ cpu with pc := add64 pc (ofI64 off) }, mem, mmu, .fall)
  | .LB rd rs1 off =>
      let addr := add64 (rreg cpu0 rs1) (ofI64 off)
      match mem.read_u8 addr satp priv_mode mmu with
      | (.error e, mmu') => (cpu0, mem, mmu', .err (.Trapped (memWithPc pc e)))
      | (.ok byte, mmu') =>
          let cpu := wreg cpu0 rd (ofI64 (sextBits byte 8))
          ({ cpu with pc := add64 pc 4 }, mem, mmu', .fall)
  | .LBU rd rs1 off =>
      let addr := add64 (rreg cpu0 rs1) (ofI64 off)
      match mem.read_u8 addr satp priv_mode mmu with
      | (.error e, mmu') => (cpu0, mem, mmu', .err (.Trapped (memWithPc pc e)))
      | (.ok byte, mmu') =>
          let cpu := wreg cpu0 rd byte
          ({ cpu with pc := add64 pc 4 }, mem, mmu', .fall)
  | .LH rd rs1 off =>
      let addr := add64 (rreg cpu0 rs1) (ofI64 off)
      match mem.read_u16 addr satp priv_mode mmu with
      | (.error e, mmu') => (cpu0, mem, mmu', .err (.Trapped (memWithPc pc e)))
      | (.ok half, mmu') =>
          let cpu := wreg cpu0 rd (ofI64 (sextBits half 16))
          ({ cpu with pc := add64 pc 4 }, mem, mmu', .fall)
  | .LHU rd rs1 off =>
      let addr := add64 (rreg cpu0 rs1) (ofI64 off)
      match mem.read_u16 addr satp priv_mode mmu with
      | (.error e, mmu') => (cpu0, mem, mmu', .err (.Trapped (memWithPc pc e)))
      | (.ok half, mmu') =>
          let cpu := wreg cpu0 rd half
          ({ cpu with pc := add64 pc 4 }, mem, mmu', .fall)
  | .LD rd rs1 off =>
      let addr := add64 (rreg cpu0 rs1) (ofI64 off)
      match mem.read_u64 addr satp priv_mode mmu with
      | (.error e, mmu') => (cpu0, mem, mmu', .err (.Trapped (memWithPc pc e)))
      | (.ok word, mmu') =>
          let cpu := wreg cpu0 rd word
          ({ cpu with pc := add64 pc 4 }, mem, mmu', .fall)
  | .SB rs1 rs2 off =>
      let addr := add64 (rreg cpu0 rs1) (ofI64 off)
      let byte := rreg cpu0 rs2 &&& 0xff
      match mem.write_u8 addr byte satp priv_mode mmu with
      | (.error e, mmu') => (cpu0, mem, mmu', .err (.Trapped (memWithPc pc e)))
      | (.ok mem', mmu') =>
          ({ cpu0 with pc := add64 pc 4 }, mem', mmu', .fall)
  | .Xor rd rs1 rs2 =>
      let cpu := wreg cpu0 rd (rreg cpu0 rs1 ^^^ rreg cpu0 rs2)
      ({ cpu with pc := add64 pc 4 }, mem, mmu, .fall)
  | .Or rd rs1 rs2 =>
      let cpu := wreg cpu0 rd (rreg cpu0 rs1 ||| rreg cpu0 rs2)
      ({ cpu with pc := add64 pc 4 }, mem, mmu, .fall)
  | .And rd rs1 rs2 =>
      let cpu := wreg cpu0 rd (rreg cpu0 rs1 &&& rreg cpu0 rs2)
      ({ cpu with pc := add64 pc 4 }, mem, mmu, .fall)
  | .Sll rd rs1 rs2 =>
      let cpu := wreg cpu0 rd (shl64 (rreg cpu0 rs1) (rreg cpu0 rs2 &&& 0x3f))
      ({ cpu with pc := add64 pc 4 }, mem, mmu, .fall)
  | .Srl rd rs1 rs2 =>
      let cpu := wreg cpu0 rd (shr64 (rreg cpu0 rs1) (rreg cpu0 rs2 &&& 0x3f))
      ({ cpu with pc := add64 pc 4 }, mem, mmu, .fall)
  | .Sra rd rs1 rs2 =>
      let cpu := wreg cpu0 rd (sra64 (rreg cpu0 rs1) (rreg cpu0 rs2 &&& 0x3f))
      ({ cpu with pc := add64 pc 4 }, mem, mmu, .fall)
  | .Slt rd rs1 rs2 =>
      let cpu := wreg cpu0 rd
        (if toI64 (rreg cpu0 rs1) < toI64 (rreg cpu0 rs2) then 1 else 0)
      ({ cpu with pc := add64 pc 4 }, mem, mmu, .fall)
  | .Sltu rd rs1 rs2 =>
      let cpu := wreg cpu0 rd (if rreg cpu0 rs1 < rreg cpu0 rs2 then 1 else 0)
      ({ cpu with pc := add64 pc 4 }, mem, mmu, .fall)
  | .Mul rd rs1 rs2 =>
      let cpu := wreg cpu0 rd (mask64 (rreg cpu0 rs1 * rreg cpu0 rs2))
      ({ cpu with pc := add64 pc 4 }, mem, mmu, .fall)
  | .Mulh rd rs1 rs2 =>
      let hi := ofI64 (Int.fdiv (toI64 (rreg cpu0 rs1) * toI64 (rreg cpu0 rs2)) (2 ^ 64))
      let cpu := wreg cpu0 rd hi
      ({ cpu with pc := add64 pc 4 }, mem, mmu, .fall)
  | .Mulhsu rd rs1 rs2 =>
      let hi := ofI64 (Int.fdiv (toI64 (rreg cpu0 rs1) * (rreg cpu0 rs2 : Int)) (2 ^ 64))
      let cpu := wreg cpu0 rd hi
      ({ cpu with pc := add64 pc 4 }, mem, mmu, .fall)
  | .Mulhu rd rs1 rs2 =>
      let cpu := wreg cpu0 rd (rreg cpu0 rs1 * rreg cpu0 rs2 / 2 ^ 64)
      ({ cpu with pc := add64 pc 4 }, mem, mmu, .fall)
  | .Div rd rs1 rs2 =>
      let dividend := toI64 (rreg cpu0 rs1)
      let divisor := toI64 (rreg cpu0 rs2)
      let result : Int :=
        if divisor = 0 then -1
        else if dividend = -(2 ^ 63) ∧ divisor = -1 then -(2 ^ 63)
        else tdiv dividend divisor
      let cpu := wreg cpu0 rd (ofI64 result)
      ({ cpu with pc := add64 pc 4 }, mem, mmu, .fall)
  | .Divu rd rs1 rs2 =>
      let dividend := rreg cpu0 rs1
      let divisor := rreg cpu0 rs2
      let result := if divisor = 0 then M64 - 1 else dividend / divisor
      let cpu := wreg cpu0 rd result
      ({ cpu with pc := add64 pc 4 }, mem, mmu, .fall)
  | .Rem rd rs1 rs2 =>
      let dividend := toI64 (rreg cpu0 rs1)
      let divisor := toI64 (rreg cpu0 rs2)
      let result : Int :=
        if divisor = 0 then dividend
        else if dividend = -(2 ^ 63) ∧ divisor = -1 then 0
        else tmod dividend divisor
      let cpu := wreg cpu0 rd (ofI64 result)
      ({ cpu with pc := add64 pc 4 }, mem, mmu, .fall)
  | .Remu rd rs1 rs2 =>
      let dividend := rreg cpu0 rs1
      let divisor := rreg cpu0 rs2
      let result := if divisor = 0 then dividend else dividend % divisor
      let cpu := wreg cpu0 rd result
      ({ cpu with pc := add64 pc 4 }, mem, mmu, .fall)
  | .Xori rd rs1 imm =>
      let cpu := wreg cpu0 rd (rreg cpu0 rs1 ^^^ ofI64 imm)
      ({ cpu with pc := add64 pc 4 }, mem, mmu, .fall)
  | .Ori rd rs1 imm =>
      let cpu := wreg cpu0 rd (rreg cpu0 rs1 ||| ofI64 imm)
      ({ cpu with pc := add64 pc 4 }, mem, mmu, .fall)
  | .Andi rd rs1 imm =>
      let cpu := wreg cpu0 rd (rreg cpu0 rs1 &&& ofI64 imm)
      ({ cpu with pc := add64 pc 4 }, mem, mmu, .fall)
  | .Slli rd rs1 shamt =>
      let cpu := wreg cpu0 rd (shl64 (rreg cpu0 rs1) (shamt &&& 0x3f))
      ({ cpu with pc := add64 pc 4 }, mem, mmu, .fall)
  | .Srli rd rs1 shamt =>
      let cpu := wreg cpu0 rd (shr64 (rreg cpu0 rs1) (shamt &&& 0x3f))
      ({ cpu with pc := add64 pc 4 }, mem, mmu, .fall)
  | .Srai rd rs1 shamt =>
      let cpu := wreg cpu0 rd (sra64 (rreg cpu0 rs1) (shamt &&& 0x3f))
      ({ cpu with pc := add64 pc 4 }, mem, mmu, .fall)
  | .Slti rd rs1 imm =>
      let cpu := wreg cpu0 rd (if toI64 (rreg cpu0 rs1) < imm then 1 else 0)
      ({ cpu with pc := add64 pc 4 }, mem, mmu, .fall)
  | .Sltiu rd rs1 imm =>
      let cpu := wreg cpu0 rd (if rreg cpu0 rs1 < ofI64 imm then 1 else 0)
      ({ cpu with pc := add64 pc 4 }, mem, mmu, .fall)
  | .LW rd rs1 off =>
      let addr := add64 (rreg cpu0 rs1) (ofI64 off)
      match mem.read_u32 addr satp priv_mode mmu with
      | (.error e, mmu') => (cpu0, mem, mmu', .err (.Trapped (memWithPc pc e)))
      | (.ok word, mmu') =>
          let cpu := wreg cpu0 rd (ofI64 (sextBits word 32))
          ({ cpu with pc := add64 pc 4 }, mem, mmu', .fall)
  | .SH rs1 rs2 off =>
      let addr := add64 (rreg cpu0 rs1) (ofI64 off)
      let half := rreg cpu0 rs2 &&& 0xffff
      match mem.write_u16 addr half satp priv_mode mmu with
      | (.error e, mmu') => (cpu0, mem, mmu', .err (.Trapped (memWithPc pc e)))
      | (.ok mem', mmu') =>
          ({ cpu0 with pc := add64 pc 4 }, mem', mmu', .fall)
  | .SW rs1 rs2 off =>
      let addr := add64 (rreg cpu0 rs1) (ofI64 off)
      let word := rreg cpu0 rs2 &&& 0xffffffff
      match mem.translate_addr addr satp false true priv_mode mmu with
      | (.error e, mmu') => (cpu0, mem, mmu', .err (.Trapped (memWithPc pc e)))
      | (.ok paddr, mmu') =>
          if host_exit_addr = some paddr then
            let value := word
            let device := (value >>> 56) &&& 0xff
            let cmd := (value >>> 48) &&& 0xff
            if device = 0 ∧ cmd = 0 ∧ value ≠ 0 then
              (cpu0, mem, mmu',
               .err (.Halt (.HostExit value (rreg cpu0 3))))
            else
              match mem.write_u64_phys paddr 0 with
              | .error e => (cpu0, mem, mmu', .err (.Trapped (memWithPc pc e)))
              | .ok mem' =>
                  ({ cpu0 with pc := add64 pc 4 }, mem', mmu', .earlyOk)
          else
            match mem.write_u32_phys paddr word with
            | .error e => (cpu0, mem, mmu', .err (.Trapped (memWithPc pc e)))
            | .ok mem' =>
                ({ cpu0 with pc := add64 pc 4 }, mem', mmu', .fall)
  | .Blt rs1 rs2 off =>
      let newpc := if toI64 (rreg cpu0 rs1) < toI64 (rreg cpu0 rs2) then
        add64 pc (ofI64 off) else add64 pc 4
      ({ cpu0 with pc := newpc }, mem, mmu, .fall)
  | .Bge rs1 rs2 off =>
      let newpc := if toI64 (rreg cpu0 rs1) ≥ toI64 (rreg cpu0 rs2) then
        add64 pc (ofI64 off) else add64 pc 4
      ({ cpu0 with pc := newpc }, mem, mmu, .fall)
  | .Bltu rs1 rs2 off =>
      let newpc := if rreg cpu0 rs1 < rreg cpu0 rs2 then add64 pc (ofI64 off)
        else add64 pc 4
      ({ cpu0 with pc := newpc }, mem, mmu, .fall)
  | .Bgeu rs1 rs2 off =>
      let newpc := if rreg cpu0 rs1 ≥ rreg cpu0 rs2 then add64 pc (ofI64 off)
        else add64 pc 4
      ({ cpu0 with pc := newpc }, mem, mmu, .fall)
  | .Jalr rd rs1 off =>
      let target := add64 (rreg cpu0 rs1) (ofI64 off) &&& (M64 - 2)
      let cpu := wreg cpu0 rd (add64 pc 4)
      ({ cpu with pc := target }, mem, mmu, .fall)
  | .Auipc rd imm =>
      let cpu := wreg cpu0 rd (add64 pc (ofI64 imm))
      ({ cpu with pc := add64 pc 4 }, mem, mmu, .fall)
  | .Ecall =>
      let trap : Trap :=
        match cpu0.csr.priv_mode with
        | .User => .Ecall pc
        | .Supervisor => .EcallFromS pc
        | .Machine => .EcallFromM pc
      (cpu0, mem, mmu, .err (.Trapped trap))
  | .Ebreak =>
      (cpu0, mem, mmu, .err (.Trapped (.Breakpoint pc)))
  | .Addiw rd rs1 imm =>
      let result := toI64 (rreg cpu0 rs1) + imm
      let cpu := wreg cpu0 rd (ofI64 (execSext result 32))
      ({ cpu with pc := add64 pc 4 }, mem, mmu, .fall)
  | .Slliw rd rs1 shamt =>
      let result := mask64 ((rreg cpu0 rs1 &&& 0xffffffff) <<< (shamt &&& 0x1f))
      let cpu := wreg cpu0 rd (sext32u result)
      ({ cpu with pc := add64 pc 4 }, mem, mmu, .fall)
  | .Srliw rd rs1 shamt =>
      let result := (rreg cpu0 rs1 &&& 0xffffffff) >>> (shamt &&& 0x1f)
      let cpu := wreg cpu0 rd (sext32u result)
      ({ cpu with pc := add64 pc 4 }, mem, mmu, .fall)
  | .Sraiw rd rs1 shamt =>
      let result := ofI32 (Int.fdiv (toI32 (rreg cpu0 rs1)) (2 ^ (shamt &&& 0x1f)))
      let cpu := wreg cpu0 rd (sext32u result)
      ({ cpu with pc := add64 pc 4 }, mem, mmu, .fall)
  | .Addw rd rs1 rs2 =>
      let result := ofI32 (toI32 (rreg cpu0 rs1) + toI32 (rreg cpu0 rs2))
      let cpu := wreg cpu0 rd (sext32u result)
      ({ cpu with pc := add64 pc 4 }, mem, mmu, .fall)
  | .Subw rd rs1 rs2 =>
      let result := ofI32 (toI32 (rreg cpu0 rs1) - toI32 (rreg cpu0 rs2))
      let cpu := wreg cpu0 rd (sext32u result)
      ({ cpu with pc := add64 pc 4 }, mem, mmu, .fall)
  | .Sllw rd rs1 rs2 =>
      let result := mask32 (mask32 (rreg cpu0 rs1) <<< (rreg cpu0 rs2 &&& 0x1f))
      let cpu := wreg cpu0 rd (sext32u result)
      ({ cpu with pc := add64 pc 4 }, mem, mmu, .fall)
  | .Srlw rd rs1 rs2 =>
      let result := mask32 (rreg cpu0 rs1) >>> (rreg cpu0 rs2 &&& 0x1f)
      let cpu := wreg cpu0 rd (sext32u result)
      ({ cpu with pc := add64 pc 4 }, mem, mmu, .fall)
  | .Sraw rd rs1 rs2 =>
      let result := ofI32 (Int.fdiv (toI32 (rreg cpu0 rs1)) (2 ^ (rreg cpu0 rs2 &&& 0x1f)))
      let cpu := wreg cpu0 rd (sext32u result)
      ({ cpu with pc := add64 pc 4 }, mem, mmu, .fall)
  | .Mulw rd rs1 rs2 =>
      let result := mask32 (mask32 (rreg cpu0 rs1) * mask32 (rreg cpu0 rs2))
      let cpu := wreg cpu0 rd (sext32u result)
      ({ cpu with pc := add64 pc 4 }, mem, mmu, .fall)
  | .Divw rd rs1 rs2 =>
      let dividend := toI32 (rreg cpu0 rs1)
      let divisor := toI32 (rreg cpu0 rs2)
      let result : Int :=
        if divisor = 0 then -1
        else if dividend = -(2 ^ 31) ∧ divisor = -1 then -(2 ^ 31)
        else tdiv dividend divisor
      let cpu := wreg cpu0 rd (sext32u (ofI32 result))
      ({ cpu with pc := add64 pc 4 }, mem, mmu, .fall)
  | .Divuw rd rs1 rs2 =>
      let dividend := mask32 (rreg cpu0 rs1)
      let divisor := mask32 (rreg cpu0 rs2)
      let result := if divisor = 0 then M32 - 1 else dividend / divisor
      let cpu := wreg cpu0 rd (sext32u result)
      ({ cpu with pc := add64 pc 4 }, mem, mmu, .fall)
  | .Remw rd rs1 rs2 =>
      let dividend := toI32 (rreg cpu0 rs1)
      let divisor := toI32 (rreg cpu0 rs2)
      let result : Int :=
        if divisor = 0 then dividend
        else if dividend = -(2 ^ 31) ∧ divisor = -1 then 0
        else tmod dividend divisor
      let cpu := wreg cpu0 rd (sext32u (ofI32 result))
      ({ cpu with pc := add64 pc 4 }, mem, mmu, .fall)
  | .Remuw rd rs1 rs2 =>
      let dividend := mask32 (rreg cpu0 rs1)
      let divisor := mask32 (rreg cpu0 rs2)
      let result := if divisor = 0 then dividend else dividend % divisor
      let cpu := wreg cpu0 rd (sext32u result)
      ({ cpu with pc := add64 pc 4 }, mem, mmu, .fall)
  | .LWU rd rs1 off =>
      let addr := add64 (rreg cpu0 rs1) (ofI64 off)
      match mem.read_u32 addr satp priv_mode mmu with
      | (.error e, mmu') => (cpu0, mem, mmu', .err (.Trapped (memWithPc pc e)))
      | (.ok word, mmu') =>
          let cpu := wreg cpu0 rd word
          ({ cpu with pc := add64 pc 4 }, mem, mmu', .fall)
  | .SD rs1 rs2 off =>
      let addr := add64 (rreg cpu0 rs1) (ofI64 off)
      let value := rreg cpu0 rs2
      match mem.translate_addr addr satp false true priv_mode mmu with
      | (.error e, mmu') => (cpu0, mem, mmu', .err (.Trapped (memWithPc pc e)))
      | (.ok paddr, mmu') =>
          if host_exit_addr = some paddr then
            let device := (value >>> 56) &&& 0xff
            let cmd := (value >>> 48) &&& 0xff
            if device = 0 ∧ cmd = 0 ∧ value ≠ 0 then
              (cpu0, mem, mmu',
               .err (.Halt (.HostExit value (rreg cpu0 3))))
            else
              match mem.write_u64_phys paddr 0 with
              | .error e => (cpu0, mem, mmu', .err (.Trapped (memWithPc pc e)))
              | .ok mem' =>
                  ({ cpu0 with pc := add64 pc 4 }, mem', mmu', .earlyOk)
          else
            match mem.write_u64_phys paddr value with
            | .error e => (cpu0, mem, mmu', .err (.Trapped (memWithPc pc e)))
            | .ok mem' =>
                ({ cpu0 with pc := add64 pc 4 }, mem', mmu', .fall)
  | .Csrrw rd csr rs1 =>
      let rs1_value := rreg cpu0 rs1
      match cpu0.csr.read csr with
      | .error e => (cpu0, mem, mmu, .err (.Trapped (csrWithPc pc e)))
      | .ok csr_value =>
          let cpu := wreg cpu0 rd csr_value
          match cpu.csr.write csr rs1_value with
          | .error e => (cpu, mem, mmu, .err (.Trapped (csrWithPc pc e)))
          | .ok csrf =>
              let cpu := { cpu with csr := csrf }
              let mmu := if csr = 0x180 then mmu.flush_tlb none else mmu
              ({ cpu with pc := add64 pc 4 }, mem, mmu, .fall)
  | .Csrrs rd csr rs1 =>
      let rs1_value := rreg cpu0 rs1
      match cpu0.csr.read csr with
      | .error e => (cpu0, mem, mmu, .err (.Trapped (csrWithPc pc e)))
      | .ok csr_value =>
          let cpu := wreg cpu0 rd csr_value
          if rs1 ≠ 0 then
            match cpu.csr.set_bits csr rs1_value with
            | .error e => (cpu, mem, mmu, .err (.Trapped (csrWithPc pc e)))
            | .ok csrf =>
                ({ cpu with csr := csrf, pc := add64 pc 4 }, mem, mmu, .fall)
          else
            ({ cpu with pc := add64 pc 4 }, mem, mmu, .fall)
  | .Csrrc rd csr rs1 =>
      let rs1_value := rreg cpu0 rs1
      match cpu0.csr.read csr with
      | .error e => (cpu0, mem, mmu, .err (.Trapped (csrWithPc pc e)))
      | .ok csr_value =>
          let cpu := wreg cpu0 rd csr_value
          if rs1 ≠ 0 then
            match cpu.csr.clear_bits csr rs1_value with
            | .error e => (cpu, mem, mmu, .err (.Trapped (csrWithPc pc e)))
            | .ok csrf =>
                ({ cpu with csr := csrf, pc := add64 pc 4 }, mem, mmu, .fall)
          else
            ({ cpu with pc := add64 pc 4 }, mem, mmu, .fall)
  | .Csrrwi rd csr uimm =>
      match cpu0.csr.read csr with
      | .error e => (cpu0, mem, mmu, .err (.Trapped (csrWithPc pc e)))
      | .ok csr_value =>
          let cpu := wreg cpu0 rd csr_value
          match cpu.csr.write csr uimm with
          | .error e => (cpu, mem, mmu, .err (.Trapped (csrWithPc pc e)))
          | .ok csrf =>
              let cpu := { cpu with csr := csrf }
              let mmu := if csr = 0x180 then mmu.flush_tlb none else mmu
              ({ cpu with pc := add64 pc 4 }, mem, mmu, .fall)
  | .Csrrsi rd csr uimm =>
      match cpu0.csr.read csr with
      | .error e => (cpu0, mem, mmu, .err (.Trapped (csrWithPc pc e)))
      | .ok csr_value =>
          let cpu := wreg cpu0 rd csr_value
          if uimm ≠ 0 then
            match cpu.csr.set_bits csr uimm with
            | .error e => (cpu, mem, mmu, .err (.Trapped (csrWithPc pc e)))
            | .ok csrf =>
                ({ cpu with csr := csrf, pc := add64 pc 4 }, mem, mmu, .fall)
          else
            ({ cpu with pc := add64 pc 4 }, mem, mmu, .fall)
  | .Csrrci rd csr uimm =>
      match cpu0.csr.read csr with
      | .error e => (cpu0, mem, mmu, .err (.Trapped (csrWithPc pc e)))
      | .ok csr_value =>
          let cpu := wreg cpu0 rd csr_value
          if uimm ≠ 0 then
            match cpu.csr.clear_bits csr uimm with
            | .error e => (cpu, mem, mmu, .err (.Trapped (csrWithPc pc e)))
            | .ok csrf =>
                ({ cpu with csr := csrf, pc := add64 pc 4 }, mem, mmu, .fall)
          else
            ({ cpu with pc := add64 pc 4 }, mem, mmu, .fall)
  | .Mret =>
      if cpu0.csr.priv_mode ≠ .Machine then
        (cpu0, mem, mmu, .err (.Trapped (.IllegalInstruction pc 0x30200073)))
      else
        match cpu0.csr.read 0x341 with
        | .error e => (cpu0, mem, mmu, .err (.Trapped (csrWithPc pc e)))
        | .ok mepc =>
            let mpp := cpu0.csr.mpp
            let csrf := { cpu0.csr with priv_mode := mpp }
            let csrf := csrf.set_mpp .User
            let mpie := (csrf.mstatus >>> 7) &&& 1
            let csrf := { csrf with mstatus :=
              (csrf.mstatus &&& (M64 - 1 - (1 <<< 3))) ||| (mpie <<< 3) }
            let csrf := { csrf with mstatus := csrf.mstatus ||| (1 <<< 7) }
            ({ cpu0 with csr := csrf, pc := mepc }, mem, mmu, .fall)
  | .Sret =>
      if cpu0.csr.priv_mode = .User then
        (cpu0, mem, mmu, .err (.Trapped (.IllegalInstruction pc 0x10200073)))
      else
        match cpu0.csr.read 0x141 with
        | .error e => (cpu0, mem, mmu, .err (.Trapped (csrWithPc pc e)))
        | .ok sepc =>
            let spp := cpu0.csr.spp
            let csrf := { cpu0.csr with priv_mode := spp }
            let csrf := csrf.set_spp .User
            let spie := (csrf.mstatus >>> 5) &&& 1
            let csrf := { csrf with mstatus :=
              (csrf.mstatus &&& (M64 - 1 - (1 <<< 1))) ||| (spie <<< 1) }
            let csrf := { csrf with mstatus := csrf.mstatus ||| (1 <<< 5) }
            ({ cpu0 with csr := csrf, pc := sepc }, mem, mmu, .fall)
  | .Sfence =>
      ({ cpu0 with pc := add64 pc 4 }, mem, mmu.flush_tlb none, .fall)
  | .Wfi =>
      ({ cpu0 with pc := add64 pc 4 }, mem, mmu, .fall)
  | .Fence =>
      ({ cpu0 with pc := add64 pc 4 }, mem, mmu, .fall)

/-- `pub fn execute(...)`: run the instruction arm, then on fall-through pin
`regs[0] = 0` and return `Ok(())` (`Continue`); early returns skip the pin. -/
def execute (cpu : Cpu) (mem : Memory) (mmu : Mmu) (instr : Instr)
    (host_exit_addr : Option Nat) : Cpu × Memory × Mmu × CpuStepResult :=
  match execInstr cpu mem mmu instr host_exit_addr with
  | (c, m, u, .fall) => (pinZero c, m, u, .Continue)
  | (c, m, u, .earlyOk) => (c, m, u, .Continue)
  | (c, m, u, .err r) => (c, m, u, r)

/-! ## Machine and the step driver — `src/cpu/mod.rs` -/

/-- `struct Machine`. -/
structure Machine where
  cpu : Cpu
  mem : Memory
  mmu : Mmu
  host_exit_addr : Option Nat
  max_insns : Nat
  executed : Nat

/-- `Machine::new`. -/
def Machine.new (ram_bytes : Nat) : Machine :=
  { cpu := { regs := fun _ => 0, pc := 0, csr := {} },
    mem := Memory.new ram_bytes,
    mmu := Mmu.new,
    host_exit_addr := none,
    max_insns := 0,
    executed := 0 }

/-- `Machine::handle_trap`.  Returns the updated machine and `some trap`
when the trap is surfaced (`Err(CpuStepResult::Trapped)`, xtvec base zero),
`none` when delivery jumped to the vector (`Ok(())`). -/
def Machine.handle_trap (mach : Machine) (trap : Trap) : Machine × Option Trap :=
  let fault_pc := trap.pc
  let cause := trap.cause
  let tvalv := trap.tval
  let is_interrupt := trap.is_interrupt
  let csr0 := mach.cpu.csr
  let delegate_to_s :=
    if is_interrupt then csr0.should_delegate_interrupt cause
    else csr0.should_delegate_exception cause
  let target_mode : PrivMode := if delegate_to_s then .Supervisor else .Machine
  let cause_val := if is_interrupt then cause ||| (1 <<< 63) else cause
  let (csr1, tvec) :=
    if target_mode = .Supervisor then
      ({ csr0 with sepc := fault_pc &&& (M64 - 2), scause := cause_val, stval := tvalv }, csr0.stvec)
    else
      ({ csr0 with mepc := fault_pc &&& (M64 - 2), mcause := cause_val, mtval := tvalv }, csr0.mtvec)
  let current_mode := csr1.priv_mode
  let csr2 :=
    if target_mode = .Machine then
      let mie := (csr1.mstatus >>> 3) &&& 1
      let csr := { csr1 with mstatus :=
        (csr1.mstatus &&& (M64 - 1 - (1 <<< 7))) ||| (mie <<< 7) }
      let csr := { csr with mstatus := csr.mstatus &&& (M64 - 1 - (1 <<< 3)) }
      csr.set_mpp current_mode
    else
      let sie := (csr1.mstatus >>> 1) &&& 1
      let csr := { csr1 with mstatus :=
        (csr1.mstatus &&& (M64 - 1 - (1 <<< 5))) ||| (sie <<< 5) }
      let csr := { csr with mstatus := csr.mstatus &&& (M64 - 1 - (1 <<< 1)) }
      csr.set_spp current_mode
  let csr3 := { csr2 with priv_mode := target_mode }
  let mode := tvec &&& 0b11
  let base := tvec &&& (M64 - 4)
  if base = 0 then
    ({ mach with cpu := { mach.cpu with csr := csr3 } }, some trap)
  else
    let newpc :=
      match mode with
      | 0 => base
      | 1 => if is_interrupt then add64 base (4 * cause) else base
      | _ => base
    ({ mach with cpu := { mach.cpu with csr := csr3, pc := newpc } }, none)

/-- `Machine::finish_step`: bump the executed counter, halt on a reached
max-instructions budget (before the cycle bump, as in the source), else bump
the cycle counter and continue. -/
def Machine.finish_step (mach : Machine) : Machine × CpuStepResult :=
  let mach := { mach with executed := mach.executed + 1 }
  if mach.max_insns ≠ 0 ∧ mach.executed ≥ mach.max_insns then
    (mach, .Halt .MaxInsns)
  else
    ({ mach with cpu := { mach.cpu with csr :=
        { mach.cpu.csr with cycle := add64 mach.cpu.csr.cycle 1 } } },
     .Continue)

/-- The interrupt-cause dispatch at the top of `Machine::step`; `none` is the
`_ => return self.finish_step()` arm ("Unknown interrupt, ignore"). -/
def interruptTrap (cause pcv : Nat) : Option Trap :=
  match cause with
  | 1 => some (.SupervisorSoftwareInterrupt pcv)
  | 3 => some (.MachineSoftwareInterrupt pcv)
  | 5 => some (.SupervisorTimerInterrupt pcv)
  | 7 => some (.MachineTimerInterrupt pcv)
  | 9 => some (.SupervisorExternalInterrupt pcv)
  | 11 => some (.MachineExternalInterrupt pcv)
  | _ => none

/-- Shared tail of `step`: dispatch a trap through `handle_trap`; a surfaced
trap propagates (`?`) without reaching `finish_step`. -/
def Machine.dispatchTrap (mach : Machine) (trap : Trap) : Machine × CpuStepResult :=
  match mach.handle_trap trap with
  | (mach', some t) => (mach', .Trapped t)
  | (mach', none) => mach'.finish_step

/-- `Machine::step`: interrupt poll → fetch → decode → execute → commit. -/
def Machine.step (mach : Machine) : Machine × CpuStepResult :=
  match mach.cpu.csr.check_pending_interrupt with
  | some cause =>
      match interruptTrap cause mach.cpu.pc with
      | none => mach.finish_step
      | some trap => mach.dispatchTrap trap
  | none =>
      match mach.mem.read_u32_exec mach.cpu.pc mach.cpu.csr.satp
          mach.cpu.csr.priv_mode mach.mmu with
      | (.error e, mmu') =>
          let mach := { mach with mmu := mmu' }
          mach.dispatchTrap (memWithPc mach.cpu.pc e)
      | (.ok inst, mmu') =>
          let mach := { mach with mmu := mmu' }
          match decode mach.cpu.pc inst with
          | .error e => mach.dispatchTrap (decodeWithPc mach.cpu.pc e)
          | .ok decoded =>
              match execute mach.cpu mach.mem mach.mmu decoded mach.host_exit_addr with
              | (cpu', mem', mmu2, .Continue) =>
                  Machine.finish_step { mach with cpu := cpu', mem := mem', mmu := mmu2 }
              | (cpu', mem', mmu2, .Halt reason) =>
                  ({ mach with cpu := cpu', mem := mem', mmu := mmu2, executed := mach.executed + 1 }, .Halt reason)
              | (cpu', mem', mmu2, .Trapped trap) =>
                  Machine.dispatchTrap
                    { mach with cpu := cpu', mem := mem', mmu := mmu2 } trap

/-! ## Reference rules written from the specification's words

These definitions transcribe spec sentences (not the source); they exist to
be compared against the source-derived definitions above. -/

/-- The interrupt priority order stated by the spec:
MEI(11), MSI(3), MTI(7), SEI(9), SSI(1), STI(5). -/
def interruptPriority : List Nat := [11, 3, 7, 9, 1, 5]

/-- The pending-interrupt rule exactly as the claim words it: in Supervisor
mode, enabled iff "current mode < Machine OR (current mode == Supervisor AND
mstatus.SIE)". -/
def c5ClaimRule (c : CsrFile) : Option Nat :=
  let pending := c.mip &&& c.mie
  if pending = 0 then none
  else
    let enabled : Bool :=
      match c.priv_mode with
      | .Machine => c.mstatus &&& CsrFile.MSTATUS_MIE ≠ 0
      | .Supervisor =>
          c.priv_mode.toNat < PrivMode.Machine.toNat ∨
            (c.priv_mode = .Supervisor ∧ c.mstatus &&& CsrFile.MSTATUS_SIE ≠ 0)
      | .User => true
    if enabled then
      interruptPriority.find? (fun b => pending &&& (1 <<< b) ≠ 0)
    else none

/-- The pending-interrupt rule with the Supervisor arm amended to what the
source implements: enabled iff `mstatus.SIE`. -/
def c5AmendedRule (c : CsrFile) : Option Nat :=
  let pending := c.mip &&& c.mie
  if pending = 0 then none
  else
    let enabled : Bool :=
      match c.priv_mode with
      | .Machine => c.mstatus &&& CsrFile.MSTATUS_MIE ≠ 0
      | .Supervisor => c.mstatus &&& CsrFile.MSTATUS_SIE ≠ 0
      | .User => true
    if enabled then
      interruptPriority.find? (fun b => pending &&& (1 <<< b) ≠ 0)
    else none

/-! ## Small facts about the embedding used across proofs -/

theorem wreg_csr (c : Cpu) (i v : Nat) : (wreg c i v).csr = c.csr := by
  unfold wreg; split <;> rfl

theorem wreg_pc (c : Cpu) (i v : Nat) : (wreg c i v).pc = c.pc := by
  unfold wreg; split <;> rfl

theorem wreg_regs_self (c : Cpu) (i v : Nat) (h : i ≠ 0) :
    (wreg c i v).regs i = v := by
  unfold wreg; simp [h]

theorem wreg_regs_zero (c : Cpu) (i v : Nat) : (wreg c i v).regs 0 = c.regs 0 := by
  unfold wreg; split
  · next h => simp [Ne.symm h]
  · rfl

theorem pinZero_regs_zero (c : Cpu) : (pinZero c).regs 0 = 0 := by
  simp [pinZero]

theorem pinZero_regs_ne (c : Cpu) (i : Nat) (h : i ≠ 0) :
    (pinZero c).regs i = c.regs i := by
  simp [pinZero, h]

/-! ## Claim theorems -/

/-- C3: the spec lists the M-extension R-type operations (opcode `0b0110011`
/ `0b0111011` with funct7 0x01) and SRET, WFI, SFENCE.VMA as decodable, and
`exec.rs` implements all of them, but the `decode.rs` under src/ returns
`InvalidOpcode` for every one of these standard encodings (shown here for
MUL x3,x1,x2; MULH; DIV; REMU; MULW; SRET; WFI; SFENCE.VMA x0,x0). -/
theorem decode_rejects_m_extension_and_system :
    decode 0 0x022081B3 = .error (.InvalidOpcode 0x022081B3) ∧
    decode 0 0x022091B3 = .error (.InvalidOpcode 0x022091B3) ∧
    decode 0 0x0220C1B3 = .error (.InvalidOpcode 0x0220C1B3) ∧
    decode 0 0x0220F1B3 = .error (.InvalidOpcode 0x0220F1B3) ∧
    decode 0 0x022081BB = .error (.InvalidOpcode 0x022081BB) ∧
    decode 0 0x10200073 = .error (.InvalidOpcode 0x10200073) ∧
    decode 0 0x10500073 = .error (.InvalidOpcode 0x10500073) ∧
    decode 0 0x12000073 = .error (.InvalidOpcode 0x12000073) :=
  ⟨rfl, rfl, rfl, rfl, rfl, rfl, rfl, rfl⟩

/-- C4 counterexample: a write of an Sv39-mode value (mode field 8) to satp
is silently ignored — the value is NOT stored, contradicting the claim that
mode 8 is a supported mode whose writes store `v`. -/
theorem satp_write_sv39_ignored_cx :
    CsrFile.write { } 0x180 (8 <<< 60) = .ok ({ } : CsrFile) ∧
    ({ } : CsrFile).satp ≠ 8 <<< 60 :=
  ⟨rfl, by decide⟩

/-- C4 (amended): a satp write from Supervisor or Machine stores the value
iff the mode field (bits 63:60) is zero (bare); any nonzero mode — including
Sv39's 8 — leaves satp unchanged and reports no error. -/
theorem satp_write_bare_only (c : CsrFile) (v : Nat) (h : c.priv_mode ≠ .User) :
    c.write 0x180 v = if v >>> 60 = 0 then .ok { c with satp := v } else .ok c := by
  rcases c with ⟨pm, ms, mtv, mep, mca, mtl, mie, mip, med, mid, msc, stv, sep,
    sca, stl, ssc, sat, cyc, tim, pa0, pc0, mh⟩
  cases pm with
  | User => exact absurd rfl h
  | Supervisor => rfl
  | Machine => rfl

/-- C4 witness: a bare-mode write stores the value; an Sv39-mode write is
dropped. -/
theorem satp_write_bare_only_witness :
    CsrFile.write { } 0x180 5 = .ok { satp := 5 } ∧
    CsrFile.write { } 0x180 ((8 <<< 60) ||| 1) = .ok ({ } : CsrFile) := by
  have h1 := satp_write_bare_only { } 5 (by decide)
  have h2 := satp_write_bare_only { } ((8 <<< 60) ||| 1) (by decide)
  norm_num at h1 h2
  exact ⟨h1, h2⟩

/-- C5 counterexample: in Supervisor mode with `mstatus.SIE` clear and SSI
pending and enabled, the source returns `None`, while the claim's
global-enable rule ("current mode < Machine OR …", which is always true in
Supervisor mode) would deliver SSI. -/
theorem check_pending_interrupt_cx :
    CsrFile.check_pending_interrupt { priv_mode := .Supervisor, mip := 2, mie := 2 } = none ∧
    c5ClaimRule { priv_mode := .Supervisor, mip := 2, mie := 2 } = some 1 :=
  ⟨rfl, rfl⟩

/-- C5 (amended): `check_pending_interrupt` returns None when `mip & mie` is
zero, otherwise honors the global-enable rule — Machine: `mstatus.MIE`;
Supervisor: `mstatus.SIE`; User: always — and picks the first pending cause
in the priority order MEI(11), MSI(3), MTI(7), SEI(9), SSI(1), STI(5). -/
theorem check_pending_interrupt_spec (c : CsrFile) :
    c.check_pending_interrupt = c5AmendedRule c := by
  rcases c with ⟨pm, ms, mtv, mep, mca, mtl, mie, mip, med, mid, msc, stv, sep,
    sca, stl, ssc, sat, cyc, tim, pa0, pc0, mh⟩
  cases pm <;>
    simp only [CsrFile.check_pending_interrupt, c5AmendedRule, interruptPriority] <;>
    by_cases h0 : mip &&& mie = 0 <;>
    simp [h0, List.find?] <;>
    (repeat' split) <;> simp_all

set_option maxHeartbeats 1000000 in
/-- C8: `csrrw rd, csr, rs1` with `rd == rs1` captures the source register
before the CSR read: the CSR receives the pre-instruction `x[rs1]` (witnessed
by `hwrite` being about `cpu.regs r`), and `rd` receives the old CSR value. -/
theorem csrrw_rd_eq_rs1 (cpu : Cpu) (mem : Memory) (mmu : Mmu)
    (host : Option Nat) (r csrN oldv : Nat) (csrf : CsrFile)
    (hr : r ≠ 0)
    (hread : cpu.csr.read csrN = .ok oldv)
    (hwrite : cpu.csr.write csrN (cpu.regs r) = .ok csrf) :
    (execute cpu mem mmu (.Csrrw r csrN r) host).1.regs r = oldv ∧
    (execute cpu mem mmu (.Csrrw r csrN r) host).1.csr = csrf ∧
    (execute cpu mem mmu (.Csrrw r csrN r) host).2.2.2 = .Continue := by
  have hcsr : (wreg cpu r oldv).csr = cpu.csr := wreg_csr ..
  simp only [execute, execInstr, rreg, hread, hcsr, hwrite]
  refine ⟨?_, ?_, ?_⟩
  · rw [pinZero_regs_ne _ _ hr]
    exact wreg_regs_self _ _ _ hr
  · rfl
  · trivial

/-- C8 witness: the spec's concrete scenario — Supervisor mode,
`sscratch = 0xabcd`, `x2 = 0x1234`, execute `csrrw x2, sscratch, x2`;
afterwards `x2 = 0xabcd` and `sscratch = 0x1234`. -/
theorem csrrw_rd_eq_rs1_witness :
    (execute { regs := fun j => if j = 2 then 0x1234 else 0, pc := 0x80000000, csr := { priv_mode := .Supervisor, sscratch := 0xabcd } } (Memory.new 0x100) Mmu.new (.Csrrw 2 0x140 2) none).1.regs 2 = 0xabcd ∧
    (execute { regs := fun j => if j = 2 then 0x1234 else 0, pc := 0x80000000, csr := { priv_mode := .Supervisor, sscratch := 0xabcd } } (Memory.new 0x100) Mmu.new (.Csrrw 2 0x140 2) none).1.csr.sscratch = 0x1234 := by
  have h := csrrw_rd_eq_rs1
    { regs := fun j => if j = 2 then 0x1234 else 0, pc := 0x80000000, csr := { priv_mode := .Supervisor, sscratch := 0xabcd } }
    (Memory.new 0x100) Mmu.new none 2 0x140 0xabcd
    { priv_mode := .Supervisor, sscratch := 0x1234 }
    (by decide) rfl rfl
  exact ⟨h.1, by rw [h.2.1]⟩

/-- C6 counterexample: `csrrs` to satp (CSR 0x180) with `rs1 ≠ 0` performs a
CSR write (satp goes from 0 to 1) but does NOT flush the TLB — the entry
survives, contradicting the claim that every satp-writing CSR form flushes. -/
theorem csrrs_satp_no_flush_cx :
    (execute { regs := fun j => if j = 1 then 1 else 0, pc := 0x80000000, csr := { priv_mode := .Machine } } (Memory.new 0x10) { tlb := [{ vpn := 5, isFetch := false, isWrite := false, priv := .User, ppn := 7, level := 0 }] } (.Csrrs 0 0x180 1) none).2.2.1.tlb = [{ vpn := 5, isFetch := false, isWrite := false, priv := .User, ppn := 7, level := 0 }] ∧
    (execute { regs := fun j => if j = 1 then 1 else 0, pc := 0x80000000, csr := { priv_mode := .Machine } } (Memory.new 0x10) { tlb := [{ vpn := 5, isFetch := false, isWrite := false, priv := .User, ppn := 7, level := 0 }] } (.Csrrs 0 0x180 1) none).1.csr.satp = 1 :=
  ⟨rfl, rfl⟩

/-- C6 (amended): a `csrrw`/`csrrwi` to satp flushes the TLB whenever the
instruction completes, while the `csrrs`/`csrrc`/`csrrsi`/`csrrci` forms
never touch the TLB, even when they write satp. -/
theorem satp_write_tlb_flush (cpu : Cpu) (mem : Memory) (mmu : Mmu)
    (host : Option Nat) (rd rs1 : Nat) :
    ((execute cpu mem mmu (.Csrrw rd 0x180 rs1) host).2.2.2 = .Continue →
      (execute cpu mem mmu (.Csrrw rd 0x180 rs1) host).2.2.1.tlb = []) ∧
    ((execute cpu mem mmu (.Csrrwi rd 0x180 rs1) host).2.2.2 = .Continue →
      (execute cpu mem mmu (.Csrrwi rd 0x180 rs1) host).2.2.1.tlb = []) ∧
    (execute cpu mem mmu (.Csrrs rd 0x180 rs1) host).2.2.1 = mmu ∧
    (execute cpu mem mmu (.Csrrc rd 0x180 rs1) host).2.2.1 = mmu ∧
    (execute cpu mem mmu (.Csrrsi rd 0x180 rs1) host).2.2.1 = mmu ∧
    (execute cpu mem mmu (.Csrrci rd 0x180 rs1) host).2.2.1 = mmu := by
  refine ⟨?_, ?_, ?_, ?_, ?_, ?_⟩
  · cases hread : cpu.csr.read 0x180 with
    | error e => intro hc; simp [execute, execInstr, hread] at hc
    | ok v =>
      cases hw : (wreg cpu rd v).csr.write 0x180 (rreg cpu rs1) with
      | error e => intro hc; simp [execute, execInstr, hread, hw] at hc
      | ok csrf => intro _m; simp [execute, execInstr, hread, hw, Mmu.flush_tlb]
  · cases hread : cpu.csr.read 0x180 with
    | error e => intro hc; simp [execute, execInstr, hread] at hc
    | ok v =>
      cases hw : (wreg cpu rd v).csr.write 0x180 rs1 with
      | error e => intro hc; simp [execute, execInstr, hread, hw] at hc
      | ok csrf => intro _m; simp [execute, execInstr, hread, hw, Mmu.flush_tlb]
  · cases hread : cpu.csr.read 0x180 with
    | error e => simp [execute, execInstr, hread]
    | ok v =>
      by_cases hrs : rs1 ≠ 0
      · cases hw : (wreg cpu rd v).csr.set_bits 0x180 (rreg cpu rs1) with
        | error e => simp [execute, execInstr, hread, hrs, hw]
        | ok csrf => simp [execute, execInstr, hread, hrs, hw]
      · simp [execute, execInstr, hread, hrs]
  · cases hread : cpu.csr.read 0x180 with
    | error e => simp [execute, execInstr, hread]
    | ok v =>
      by_cases hrs : rs1 ≠ 0
      · cases hw : (wreg cpu rd v).csr.clear_bits 0x180 (rreg cpu rs1) with
        | error e => simp [execute, execInstr, hread, hrs, hw]
        | ok csrf => simp [execute, execInstr, hread, hrs, hw]
      · simp [execute, execInstr, hread, hrs]
  · cases hread : cpu.csr.read 0x180 with
    | error e => simp [execute, execInstr, hread]
    | ok v =>
      by_cases hrs : rs1 ≠ 0
      · cases hw : (wreg cpu rd v).csr.set_bits 0x180 rs1 with
        | error e => simp [execute, execInstr, hread, hrs, hw]
        | ok csrf => simp [execute, execInstr, hread, hrs, hw]
      · simp [execute, execInstr, hread, hrs]
  · cases hread : cpu.csr.read 0x180 with
    | error e => simp [execute, execInstr, hread]
    | ok v =>
      by_cases hrs : rs1 ≠ 0
      · cases hw : (wreg cpu rd v).csr.clear_bits 0x180 rs1 with
        | error e => simp [execute, execInstr, hread, hrs, hw]
        | ok csrf => simp [execute, execInstr, hread, hrs, hw]
      · simp [execute, execInstr, hread, hrs]

/-- C6 witness: a completing `csrrw` to satp (Machine mode, bare value 0)
empties a previously nonempty TLB. -/
theorem satp_write_tlb_flush_witness :
    (execute { regs := fun _ => 0, pc := 0x80000000, csr := { } } (Memory.new 0x10) { tlb := [{ vpn := 5, isFetch := false, isWrite := false, priv := .User, ppn := 7, level := 0 }] } (.Csrrw 0 0x180 0) none).2.2.1.tlb = [] :=
  (satp_write_tlb_flush { regs := fun _ => 0, pc := 0x80000000, csr := { } } (Memory.new 0x10) { tlb := [{ vpn := 5, isFetch := false, isWrite := false, priv := .User, ppn := 7, level := 0 }] } none 0 0).1 rfl

/-- C7: a page-table-walk failure during a load is NOT reported as a
LoadPageFault carrying the virtual address — `Memory::translate_addr` maps
every MMU error to `MemError::Oob(vaddr)`, so the trap is `Trap::Mem`
(cause 5, "load access fault") with tval 0, indistinguishable in kind from
an out-of-bounds physical access.  Concretely: Supervisor mode, satp selects
Sv39 with the root table at 0x8000_0000, the root PTE is 0 (V clear), and
`lb x5, 0x42(x0)` executes: the walker itself reports `LoadPageFault 0x42`,
`translate_addr` collapses it to `Oob 0x42`, and the resulting trap has
cause `LOAD_ACCESS_FAULT` and tval 0 — while `trap.rs`'s own `WithPc`
conversion (whose `LoadPageFault` arm is unreachable from loads) and the
spec both demand cause `LOAD_PAGE_FAULT` with tval = the faulting VA. -/
theorem load_walk_failure_collapses_to_oob :
    (Mmu.translate Mmu.new 0x42 ((8 <<< 60) ||| 0x80000) false false .Supervisor (Memory.new 16)).1 = .error (.LoadPageFault 0x42) ∧
    ((Memory.new 16).translate_addr 0x42 ((8 <<< 60) ||| 0x80000) false false .Supervisor Mmu.new).1 = .error (.Oob 0x42) ∧
    (execute { regs := fun _ => 0, pc := 0x80000000, csr := { priv_mode := .Supervisor, satp := (8 <<< 60) ||| 0x80000 } } (Memory.new 16) Mmu.new (.LB 5 0 0x42) none).2.2.2 = .Trapped (.Mem 0x80000000 (.Oob 0x42)) ∧
    (Trap.Mem 0x80000000 (.Oob 0x42)).cause = causes.LOAD_ACCESS_FAULT ∧
    (Trap.Mem 0x80000000 (.Oob 0x42)).tval = 0 ∧
    causes.LOAD_ACCESS_FAULT ≠ causes.LOAD_PAGE_FAULT :=
  ⟨rfl, rfl, rfl, rfl, rfl, by decide⟩

/-- `finish_step` always increments the executed counter by exactly one. -/
theorem finish_step_executed (mach : Machine) :
    (mach.finish_step).1.executed = mach.executed + 1 := by
  simp only [Machine.finish_step]; split <;> rfl

/-- `finish_step` never produces a surfaced `Trapped` result. -/
theorem finish_step_not_trapped (mach : Machine) (t : Trap) :
    (mach.finish_step).2 ≠ .Trapped t := by
  simp only [Machine.finish_step]; split <;> simp

/-- `handle_trap` does not touch the executed counter. -/
theorem handle_trap_executed (mach : Machine) (t : Trap) :
    (mach.handle_trap t).1.executed = mach.executed := by
  simp only [Machine.handle_trap]
  (repeat' split) <;> rfl

/-- `dispatchTrap` increments executed exactly when the trap was delivered
(not surfaced). -/
theorem dispatchTrap_executed (mach : Machine) (t : Trap) :
    (mach.dispatchTrap t).1.executed =
      (match (mach.dispatchTrap t).2 with
       | .Trapped _ => mach.executed
       | _ => mach.executed + 1) := by
  have hht := handle_trap_executed mach t
  unfold Machine.dispatchTrap
  cases h : mach.handle_trap t with
  | mk mach' o =>
    rw [h] at hht
    simp only at hht
    cases o with
    | some tt => simp [h, hht]
    | none =>
        cases h2 : (mach'.finish_step).2 with
        | Trapped tt => exact absurd h2 (finish_step_not_trapped mach' tt)
        | Continue => simp [h, h2, finish_step_executed, hht]
        | Halt r => simp [h, h2, finish_step_executed, hht]

/-- C10: every `step()` increments the executed counter by exactly one —
interrupt-delivery steps, trap-handled steps and halting steps included —
except a step that surfaces a `Trapped` result (trap taken with the target
xtvec base zero), which leaves the counter unchanged. -/
theorem step_executed_count (m : Machine) :
    (m.step).1.executed =
      (match (m.step).2 with
       | .Trapped _ => m.executed
       | _ => m.executed + 1) := by
  unfold Machine.step
  cases hint : m.cpu.csr.check_pending_interrupt with
  | some cause =>
      try simp only [hint]
      cases hit : interruptTrap cause m.cpu.pc with
      | none =>
          try simp only [hit]
          cases h2 : (m.finish_step).2 with
          | Trapped tt => exact absurd h2 (finish_step_not_trapped m tt)
          | Continue => simp [h2, finish_step_executed]
          | Halt r => simp [h2, finish_step_executed]
      | some trap =>
          try simp only [hit]
          exact dispatchTrap_executed m trap
  | none =>
      try simp only [hint]
      cases hf : m.mem.read_u32_exec m.cpu.pc m.cpu.csr.satp m.cpu.csr.priv_mode m.mmu with
      | mk res mmu' =>
        try simp only [hf]
        cases res with
        | error e => exact dispatchTrap_executed { m with mmu := mmu' } (memWithPc m.cpu.pc e)
        | ok inst =>
          cases hd : decode m.cpu.pc inst with
          | error e =>
              try simp only [hd]
              exact dispatchTrap_executed { m with mmu := mmu' } (decodeWithPc m.cpu.pc e)
          | ok decoded =>
            try simp only [hd]
            cases hx : execute { m with mmu := mmu' }.cpu { m with mmu := mmu' }.mem
                { m with mmu := mmu' }.mmu decoded { m with mmu := mmu' }.host_exit_addr with
            | mk cpu' rest =>
              try simp only [hx]
              cases rest with
              | mk mem' rest2 =>
                cases rest2 with
                | mk mmu2 outcome =>
                  cases outcome with
                  | Continue =>
                      cases h2 : (Machine.finish_step { m with cpu := cpu', mem := mem', mmu := mmu2 }).2 with
                      | Trapped tt => exact absurd h2 (finish_step_not_trapped _ tt)
                      | Continue => simp [h2, finish_step_executed]
                      | Halt r => simp [h2, finish_step_executed]
                  | Halt r => rfl
                  | Trapped t =>
                      exact dispatchTrap_executed { m with cpu := cpu', mem := mem', mmu := mmu2 } t

set_option maxHeartbeats 4000000 in
/-- No `execute` arm changes register 0: the write closure discards index-0
writes, and nothing else writes the register file before the re-pin. -/
theorem execInstr_regs_zero (c : Cpu) (mem : Memory) (mmu : Mmu) (i : Instr)
    (h : Option Nat) : (execInstr c mem mmu i h).1.regs 0 = c.regs 0 := by
  cases i <;>
    simp only [execInstr] <;>
    (repeat' split) <;>
    simp [wreg_regs_zero]

/-- `execute` leaves register 0 at zero whenever it was zero (the fall-through
path re-pins it outright). -/
theorem execute_regs_zero (c : Cpu) (mem : Memory) (mmu : Mmu) (i : Instr)
    (h : Option Nat) (h0 : c.regs 0 = 0) :
    (execute c mem mmu i h).1.regs 0 = 0 := by
  have h1 := execInstr_regs_zero c mem mmu i h
  unfold execute
  cases hx : execInstr c mem mmu i h with
  | mk c' rest =>
    rw [hx] at h1
    simp only at h1
    cases rest with
    | mk m' rest2 =>
      cases rest2 with
      | mk u' flow =>
        cases flow with
        | fall => simp [pinZero_regs_zero]
        | earlyOk => simpa [h1] using h0
        | err r => simpa [h1] using h0

/-- `handle_trap` never touches the register file. -/
theorem handle_trap_regs (mach : Machine) (t : Trap) :
    (mach.handle_trap t).1.cpu.regs = mach.cpu.regs := by
  simp only [Machine.handle_trap]
  (repeat' split) <;> rfl

/-- `finish_step` never touches the register file. -/
theorem finish_step_regs (mach : Machine) :
    (mach.finish_step).1.cpu.regs = mach.cpu.regs := by
  simp only [Machine.finish_step]; split <;> rfl

/-- `dispatchTrap` never touches the register file. -/
theorem dispatchTrap_regs (mach : Machine) (t : Trap) :
    (mach.dispatchTrap t).1.cpu.regs = mach.cpu.regs := by
  have hh := handle_trap_regs mach t
  unfold Machine.dispatchTrap
  cases h : mach.handle_trap t with
  | mk mach' o =>
    rw [h] at hh
    simp only at hh
    cases o with
    | some tt => simpa using hh
    | none => rw [finish_step_regs mach', hh]

/-- C9: if register 0 is zero before a `step()`, it is zero afterwards, for
every machine state and whatever the step outcome — writes to x0 are
discarded and the executor re-pins it after each executed instruction. -/
theorem step_preserves_x0 (m : Machine) (h0 : m.cpu.regs 0 = 0) :
    (m.step).1.cpu.regs 0 = 0 := by
  unfold Machine.step
  cases hint : m.cpu.csr.check_pending_interrupt with
  | some cause =>
      try simp only [hint]
      cases hit : interruptTrap cause m.cpu.pc with
      | none => rw [congrFun (finish_step_regs m) 0]; exact h0
      | some trap =>
          try simp only [hit]
          rw [congrFun (dispatchTrap_regs m trap) 0]; exact h0
  | none =>
      try simp only [hint]
      cases hf : m.mem.read_u32_exec m.cpu.pc m.cpu.csr.satp m.cpu.csr.priv_mode m.mmu with
      | mk res mmu' =>
        try simp only [hf]
        cases res with
        | error e =>
            rw [congrFun (dispatchTrap_regs { m with mmu := mmu' } (memWithPc m.cpu.pc e)) 0]
            exact h0
        | ok inst =>
          cases hd : decode m.cpu.pc inst with
          | error e =>
              try simp only [hd]
              rw [congrFun (dispatchTrap_regs { m with mmu := mmu' } (decodeWithPc m.cpu.pc e)) 0]
              exact h0
          | ok decoded =>
            try simp only [hd]
            have hex := execute_regs_zero m.cpu { m with mmu := mmu' }.mem
              { m with mmu := mmu' }.mmu decoded m.host_exit_addr h0
            cases hx : execute { m with mmu := mmu' }.cpu { m with mmu := mmu' }.mem
                { m with mmu := mmu' }.mmu decoded { m with mmu := mmu' }.host_exit_addr with
            | mk cpu' rest =>
              try simp only [hx]
              rw [hx] at hex
              simp only at hex
              cases rest with
              | mk mem' rest2 =>
                cases rest2 with
                | mk mmu2 outcome =>
                  cases outcome with
                  | Continue =>
                      rw [congrFun (finish_step_regs { m with cpu := cpu', mem := mem', mmu := mmu2 }) 0]
                      exact hex
                  | Halt r => exact hex
                  | Trapped t =>
                      rw [congrFun (dispatchTrap_regs { m with cpu := cpu', mem := mem', mmu := mmu2 } t) 0]
                      exact hex

/-- C9 witness: a concrete machine (fresh machine, PC 0, which immediately
takes a fetch fault) keeps x0 = 0 across `step()`. -/
theorem step_preserves_x0_witness : ((Machine.new 4).step).1.cpu.regs 0 = 0 :=
  step_preserves_x0 (Machine.new 4) rfl

/-- C1 counterexample: an SB store whose physical target IS the configured
host-exit address, storing value 1 (a packet with device = 0, command = 0 and
value ≠ 0, which the claim says must return `Halt(HostExit{code=1, gp=x3})`),
instead writes the byte through and continues: the SB arm performs no door
comparison at all.  Machine mode, bare translation, door at PA
0x8000_0010 = x1, x2 = 1. -/
theorem sb_ignores_host_door_cx :
    (execute { regs := fun j => if j = 1 then 0x80000010 else if j = 2 then 1 else 0, pc := 0x80000000, csr := { } } (Memory.new 0x100) Mmu.new (.SB 1 2 0) (some 0x80000010)).2.2.2 = .Continue ∧
    (execute { regs := fun j => if j = 1 then 0x80000010 else if j = 2 then 1 else 0, pc := 0x80000000, csr := { } } (Memory.new 0x100) Mmu.new (.SB 1 2 0) (some 0x80000010)).2.1.read_u8_phys 0x80000010 = .ok 1 :=
  ⟨rfl, rfl⟩

set_option maxHeartbeats 1000000 in
/-- C1 (amended): only SW and SD consult the host-exit door, and they compare
the POST-TRANSLATION physical address: when the translated address equals the
door, a qualifying packet (`(v>>56)&0xff = 0`, `(v>>48)&0xff = 0`, `v ≠ 0`,
on the width-truncated stored value) halts with `HostExit{code, gp=x3}`, a
non-qualifying packet zeroes the doubleword at the door and continues, and a
non-door address stores normally; SB and SH never compare and can never
halt. -/
theorem store_host_door (cpu : Cpu) (mem : Memory) (mmu mmu' : Mmu)
    (host : Option Nat) (rs1 rs2 : Nat) (off : Int) (paddr : Nat)
    (htr : mem.translate_addr (add64 (rreg cpu rs1) (ofI64 off)) cpu.csr.satp
      false true cpu.csr.priv_mode mmu = (.ok paddr, mmu')) :
    (host = some paddr →
      ((rreg cpu rs2 &&& 0xffffffff) >>> 56) &&& 0xff = 0 ∧
        ((rreg cpu rs2 &&& 0xffffffff) >>> 48) &&& 0xff = 0 ∧
        rreg cpu rs2 &&& 0xffffffff ≠ 0 →
      (execute cpu mem mmu (.SW rs1 rs2 off) host).2.2.2 =
        .Halt (.HostExit (rreg cpu rs2 &&& 0xffffffff) (rreg cpu 3))) ∧
    (host = some paddr →
      ¬(((rreg cpu rs2 &&& 0xffffffff) >>> 56) &&& 0xff = 0 ∧
        ((rreg cpu rs2 &&& 0xffffffff) >>> 48) &&& 0xff = 0 ∧
        rreg cpu rs2 &&& 0xffffffff ≠ 0) →
      ∀ mem2, mem.write_u64_phys paddr 0 = .ok mem2 →
      (execute cpu mem mmu (.SW rs1 rs2 off) host).2.1 = mem2 ∧
        (execute cpu mem mmu (.SW rs1 rs2 off) host).2.2.2 = .Continue) ∧
    (host ≠ some paddr →
      ∀ mem2, mem.write_u32_phys paddr (rreg cpu rs2 &&& 0xffffffff) = .ok mem2 →
      (execute cpu mem mmu (.SW rs1 rs2 off) host).2.1 = mem2 ∧
        (execute cpu mem mmu (.SW rs1 rs2 off) host).2.2.2 = .Continue) ∧
    (host = some paddr →
      (rreg cpu rs2 >>> 56) &&& 0xff = 0 ∧ (rreg cpu rs2 >>> 48) &&& 0xff = 0 ∧
        rreg cpu rs2 ≠ 0 →
      (execute cpu mem mmu (.SD rs1 rs2 off) host).2.2.2 =
        .Halt (.HostExit (rreg cpu rs2) (rreg cpu 3))) ∧
    (host = some paddr →
      ¬((rreg cpu rs2 >>> 56) &&& 0xff = 0 ∧ (rreg cpu rs2 >>> 48) &&& 0xff = 0 ∧
        rreg cpu rs2 ≠ 0) →
      ∀ mem2, mem.write_u64_phys paddr 0 = .ok mem2 →
      (execute cpu mem mmu (.SD rs1 rs2 off) host).2.1 = mem2 ∧
        (execute cpu mem mmu (.SD rs1 rs2 off) host).2.2.2 = .Continue) ∧
    (host ≠ some paddr →
      ∀ mem2, mem.write_u64_phys paddr (rreg cpu rs2) = .ok mem2 →
      (execute cpu mem mmu (.SD rs1 rs2 off) host).2.1 = mem2 ∧
        (execute cpu mem mmu (.SD rs1 rs2 off) host).2.2.2 = .Continue) ∧
    (∀ r, (execute cpu mem mmu (.SB rs1 rs2 off) host).2.2.2 ≠ .Halt r) ∧
    (∀ r, (execute cpu mem mmu (.SH rs1 rs2 off) host).2.2.2 ≠ .Halt r) := by
  refine ⟨?_, ?_, ?_, ?_, ?_, ?_, ?_, ?_⟩
  · intro hhost hpkt
    simp [execute, execInstr, htr, hhost, hpkt]
  · intro hhost hpkt mem2 hw
    simp [execute, execInstr, htr, hhost, hpkt, hw]
  · intro hhost mem2 hw
    simp [execute, execInstr, htr, hhost, hw]
  · intro hhost hpkt
    simp [execute, execInstr, htr, hhost, hpkt]
  · intro hhost hpkt mem2 hw
    simp [execute, execInstr, htr, hhost, hpkt, hw]
  · intro hhost mem2 hw
    simp [execute, execInstr, htr, hhost, hw]
  · intro r
    simp only [execute, execInstr]
    cases hwb : mem.write_u8 (add64 (rreg cpu rs1) (ofI64 off)) (rreg cpu rs2 &&& 0xff)
        cpu.csr.satp cpu.csr.priv_mode mmu with
    | mk res mmua =>
      cases res with
      | error e => simp [hwb]
      | ok m2 => simp [hwb]
  · intro r
    simp only [execute, execInstr]
    cases hwb : mem.write_u16 (add64 (rreg cpu rs1) (ofI64 off)) (rreg cpu rs2 &&& 0xffff)
        cpu.csr.satp cpu.csr.priv_mode mmu with
    | mk res mmua =>
      cases res with
      | error e => simp [hwb]
      | ok m2 => simp [hwb]

/-- C1 witness: SW to the door in bare mode with packet value 1 halts with
`HostExit{code=1, gp=0}`. -/
theorem store_host_door_witness :
    (execute { regs := fun j => if j = 1 then 0x80000010 else if j = 2 then 1 else 0, pc := 0x80000000, csr := { } } (Memory.new 0x100) Mmu.new (.SW 1 2 0) (some 0x80000010)).2.2.2 = .Halt (.HostExit 1 0) := by
  have h := store_host_door
    { regs := fun j => if j = 1 then 0x80000010 else if j = 2 then 1 else 0, pc := 0x80000000, csr := { } }
    (Memory.new 0x100) Mmu.new Mmu.new (some 0x80000010) 1 2 0 0x80000010 rfl
  exact h.1 rfl (by refine ⟨rfl, rfl, ?_⟩; decide)

/-- Bits of the 64-bit all-ones mask with bit 5 cleared (`!(1<<5)`). -/
theorem tbC5_5 : Nat.testBit 18446744073709551583 5 = false := by decide
theorem tbC5_1 : Nat.testBit 18446744073709551583 1 = true := by decide
theorem tbC5_8 : Nat.testBit 18446744073709551583 8 = true := by decide

/-- Bits of the all-ones mask with bit 1 cleared (`!(1<<1)`). -/
theorem tbC1_5 : Nat.testBit 18446744073709551613 5 = true := by decide
theorem tbC1_1 : Nat.testBit 18446744073709551613 1 = false := by decide
theorem tbC1_8 : Nat.testBit 18446744073709551613 8 = true := by decide

/-- Bits of the all-ones mask with bit 8 cleared (`!MSTATUS_SPP`). -/
theorem tbC8_5 : Nat.testBit 18446744073709551359 5 = true := by decide
theorem tbC8_1 : Nat.testBit 18446744073709551359 1 = true := by decide
theorem tbC8_8 : Nat.testBit 18446744073709551359 8 = false := by decide

/-- Bits of `1 << 8` (`MSTATUS_SPP`). -/
theorem tbS8_5 : Nat.testBit 256 5 = false := by decide
theorem tbS8_1 : Nat.testBit 256 1 = false := by decide
theorem tbS8_8 : Nat.testBit 256 8 = true := by decide

/-- Bits of the all-ones mask with bit 7 cleared (`!(1<<7)`). -/
theorem tbC7_7 : Nat.testBit 18446744073709551487 7 = false := by decide
theorem tbC7_3 : Nat.testBit 18446744073709551487 3 = true := by decide
theorem tbC7_11 : Nat.testBit 18446744073709551487 11 = true := by decide
theorem tbC7_12 : Nat.testBit 18446744073709551487 12 = true := by decide

/-- Bits of the all-ones mask with bit 3 cleared (`!(1<<3)`). -/
theorem tbC3_7 : Nat.testBit 18446744073709551607 7 = true := by decide
theorem tbC3_3 : Nat.testBit 18446744073709551607 3 = false := by decide
theorem tbC3_11 : Nat.testBit 18446744073709551607 11 = true := by decide
theorem tbC3_12 : Nat.testBit 18446744073709551607 12 = true := by decide

/-- Bits of the all-ones mask with bits 12:11 cleared (`!MSTATUS_MPP`). -/
theorem tbCmpp_7 : Nat.testBit 18446744073709545471 7 = true := by decide
theorem tbCmpp_3 : Nat.testBit 18446744073709545471 3 = true := by decide
theorem tbCmpp_11 : Nat.testBit 18446744073709545471 11 = false := by decide
theorem tbCmpp_12 : Nat.testBit 18446744073709545471 12 = false := by decide

theorem tbOne_0 : Nat.testBit 1 0 = true := by decide

theorem tbMod2_0 (y : Nat) : (y % 2).testBit 0 = y.testBit 0 := by
  simp [Nat.testBit_mod_two_pow]

theorem tbMod2_ne0 (y i : Nat) (h : i ≠ 0) : (y % 2).testBit i = false := by
  apply Nat.testBit_eq_false_of_lt
  have h3 : (2 : Nat) ≤ 2 ^ i := by
    have h4 : (2 : Nat) ^ 1 ≤ 2 ^ i :=
      Nat.pow_le_pow_right (by norm_num) (Nat.one_le_iff_ne_zero.mpr h)
    simpa using h4
  omega

set_option maxHeartbeats 2000000 in
/-- C2: trap delivery.  When the delegation bit for the cause is set (with
current privilege below Machine — `should_delegate_*` is false in Machine
mode), the trap goes to Supervisor: `sepc` gets the faulting PC with bit 0
cleared, `scause` the cause (top bit set for interrupts), `stval` the trap
value, SPIE (bit 5) receives the old SIE (bit 1) which is then cleared, SPP
(bit 8) records whether the pre-trap privilege was Supervisor, the privilege
becomes Supervisor, and with a nonzero direct-mode `stvec` the PC becomes its
base — a zero base surfaces the trap instead.  Otherwise delivery targets
Machine with the mepc/mcause/mtval/MPIE/MPP (bits 12:11) analogues. -/
theorem handle_trap_delivery (mach : Machine) (trap : Trap) :
    ((if trap.is_interrupt then mach.cpu.csr.should_delegate_interrupt trap.cause
      else mach.cpu.csr.should_delegate_exception trap.cause) = true →
      (mach.handle_trap trap).1.cpu.csr.sepc = trap.pc &&& (M64 - 2) ∧
      (mach.handle_trap trap).1.cpu.csr.scause =
        (if trap.is_interrupt then trap.cause ||| (1 <<< 63) else trap.cause) ∧
      (mach.handle_trap trap).1.cpu.csr.stval = trap.tval ∧
      (mach.handle_trap trap).1.cpu.csr.mstatus.testBit 5 = mach.cpu.csr.mstatus.testBit 1 ∧
      (mach.handle_trap trap).1.cpu.csr.mstatus.testBit 1 = false ∧
      (mach.handle_trap trap).1.cpu.csr.mstatus.testBit 8 =
        decide (mach.cpu.csr.priv_mode = .Supervisor) ∧
      (mach.handle_trap trap).1.cpu.csr.priv_mode = .Supervisor ∧
      (mach.cpu.csr.stvec &&& (M64 - 4) = 0 → (mach.handle_trap trap).2 = some trap) ∧
      (mach.cpu.csr.stvec &&& (M64 - 4) ≠ 0 → mach.cpu.csr.stvec &&& 0b11 = 0 →
        (mach.handle_trap trap).1.cpu.pc = mach.cpu.csr.stvec &&& (M64 - 4) ∧
        (mach.handle_trap trap).2 = none)) ∧
    ((if trap.is_interrupt then mach.cpu.csr.should_delegate_interrupt trap.cause
      else mach.cpu.csr.should_delegate_exception trap.cause) = false →
      (mach.handle_trap trap).1.cpu.csr.mepc = trap.pc &&& (M64 - 2) ∧
      (mach.handle_trap trap).1.cpu.csr.mcause =
        (if trap.is_interrupt then trap.cause ||| (1 <<< 63) else trap.cause) ∧
      (mach.handle_trap trap).1.cpu.csr.mtval = trap.tval ∧
      (mach.handle_trap trap).1.cpu.csr.mstatus.testBit 7 = mach.cpu.csr.mstatus.testBit 3 ∧
      (mach.handle_trap trap).1.cpu.csr.mstatus.testBit 3 = false ∧
      (mach.handle_trap trap).1.cpu.csr.mstatus.testBit 11 =
        (mach.cpu.csr.priv_mode.toNat).testBit 0 ∧
      (mach.handle_trap trap).1.cpu.csr.mstatus.testBit 12 =
        (mach.cpu.csr.priv_mode.toNat).testBit 1 ∧
      (mach.handle_trap trap).1.cpu.csr.priv_mode = .Machine ∧
      (mach.cpu.csr.mtvec &&& (M64 - 4) = 0 → (mach.handle_trap trap).2 = some trap) ∧
      (mach.cpu.csr.mtvec &&& (M64 - 4) ≠ 0 → mach.cpu.csr.mtvec &&& 0b11 = 0 →
        (mach.handle_trap trap).1.cpu.pc = mach.cpu.csr.mtvec &&& (M64 - 4) ∧
        (mach.handle_trap trap).2 = none)) := by
  constructor
  · intro hdel
    by_cases hbase : mach.cpu.csr.stvec &&& 18446744073709551612 = 0 <;>
      by_cases hmode : mach.cpu.csr.stvec &&& 0b11 = 0 <;>
      by_cases hspp : mach.cpu.csr.priv_mode = PrivMode.Supervisor <;>
      simp [Machine.handle_trap, hdel, hspp, hbase, hmode, CsrFile.set_spp,
        Nat.testBit_lor, Nat.testBit_land, Nat.testBit_shiftLeft, Nat.testBit_shiftRight,
        tbMod2_0, tbC5_5, tbC5_1, tbC5_8, tbC1_5, tbC1_1, tbC1_8, tbC8_5, tbC8_1, tbC8_8,
        tbS8_5, tbS8_1, tbS8_8, tbOne_0, tbMod2_ne0, CsrFile.MSTATUS_SPP, M64]
  · intro hdel
    by_cases hbase : mach.cpu.csr.mtvec &&& 18446744073709551612 = 0 <;>
      by_cases hmode : mach.cpu.csr.mtvec &&& 0b11 = 0 <;>
      simp [Machine.handle_trap, hdel, hbase, hmode, CsrFile.set_mpp,
        Nat.testBit_lor, Nat.testBit_land, Nat.testBit_shiftLeft, Nat.testBit_shiftRight,
        tbMod2_0, tbC7_7, tbC7_3, tbC7_11, tbC7_12, tbC3_7, tbC3_3, tbC3_11, tbC3_12,
        tbCmpp_7, tbCmpp_3, tbCmpp_11, tbCmpp_12, tbOne_0, tbMod2_ne0, CsrFile.MSTATUS_MPP, M64]

/-- C2 witness: the spec's delegation scenario — User mode, `medeleg` bit 2
set, `stvec = 0x8000_0100` direct, IllegalInstruction at PC 0x8000_0200 with
encoding 0xFFFFFFFF: delivery lands in Supervisor with
`sepc = 0x8000_0200`, `scause = 2`, `stval = 0xFFFFFFFF`, SPP = 0 and
PC = 0x8000_0100. -/
theorem handle_trap_delivery_witness :
    (Machine.handle_trap { cpu := { regs := fun _ => 0, pc := 0x80000200, csr := { priv_mode := .User, medeleg := 4, stvec := 0x80000100 } }, mem := Memory.new 0, mmu := Mmu.new, host_exit_addr := none, max_insns := 0, executed := 0 } (.IllegalInstruction 0x80000200 0xFFFFFFFF)).1.cpu.csr.sepc = 0x80000200 ∧
    (Machine.handle_trap { cpu := { regs := fun _ => 0, pc := 0x80000200, csr := { priv_mode := .User, medeleg := 4, stvec := 0x80000100 } }, mem := Memory.new 0, mmu := Mmu.new, host_exit_addr := none, max_insns := 0, executed := 0 } (.IllegalInstruction 0x80000200 0xFFFFFFFF)).1.cpu.csr.scause = 2 ∧
    (Machine.handle_trap { cpu := { regs := fun _ => 0, pc := 0x80000200, csr := { priv_mode := .User, medeleg := 4, stvec := 0x80000100 } }, mem := Memory.new 0, mmu := Mmu.new, host_exit_addr := none, max_insns := 0, executed := 0 } (.IllegalInstruction 0x80000200 0xFFFFFFFF)).1.cpu.csr.stval = 0xFFFFFFFF ∧
    (Machine.handle_trap { cpu := { regs := fun _ => 0, pc := 0x80000200, csr := { priv_mode := .User, medeleg := 4, stvec := 0x80000100 } }, mem := Memory.new 0, mmu := Mmu.new, host_exit_addr := none, max_insns := 0, executed := 0 } (.IllegalInstruction 0x80000200 0xFFFFFFFF)).1.cpu.csr.mstatus.testBit 8 = false ∧
    (Machine.handle_trap { cpu := { regs := fun _ => 0, pc := 0x80000200, csr := { priv_mode := .User, medeleg := 4, stvec := 0x80000100 } }, mem := Memory.new 0, mmu := Mmu.new, host_exit_addr := none, max_insns := 0, executed := 0 } (.IllegalInstruction 0x80000200 0xFFFFFFFF)).1.cpu.csr.priv_mode = .Supervisor ∧
    (Machine.handle_trap { cpu := { regs := fun _ => 0, pc := 0x80000200, csr := { priv_mode := .User, medeleg := 4, stvec := 0x80000100 } }, mem := Memory.new 0, mmu := Mmu.new, host_exit_addr := none, max_insns := 0, executed := 0 } (.IllegalInstruction 0x80000200 0xFFFFFFFF)).1.cpu.pc = 0x80000100 ∧
    (Machine.handle_trap { cpu := { regs := fun _ => 0, pc := 0x80000200, csr := { priv_mode := .User, medeleg := 4, stvec := 0x80000100 } }, mem := Memory.new 0, mmu := Mmu.new, host_exit_addr := none, max_insns := 0, executed := 0 } (.IllegalInstruction 0x80000200 0xFFFFFFFF)).2 = none := by
  have h := (handle_trap_delivery { cpu := { regs := fun _ => 0, pc := 0x80000200, csr := { priv_mode := .User, medeleg := 4, stvec := 0x80000100 } }, mem := Memory.new 0, mmu := Mmu.new, host_exit_addr := none, max_insns := 0, executed := 0 } (.IllegalInstruction 0x80000200 0xFFFFFFFF)).1 (by decide)
  refine ⟨h.1, h.2.1, h.2.2.1, ?_, h.2.2.2.2.2.2.1, ?_, ?_⟩
  · have h8 := h.2.2.2.2.2.1
    simpa using h8
  · exact (h.2.2.2.2.2.2.2.2 (by decide) (by decide)).1
  · exact (h.2.2.2.2.2.2.2.2 (by decide) (by decide)).2

end RiscvEmu
